import Mathlib

/-!
# deepstream-test1-usb-people-count

A shallow embedding of `deepstream-test1-usb-people-count.c`: the buffer probe
`osd_sink_pad_buffer_probe` (person counting, overlay text, throughput counter,
frame index) and `main` (argument check, conditional pipeline assembly, shutdown
throughput report), followed by theorems about them.

Conventions of the embedding:
* `guint` values are naturals reduced modulo `2 ^ 32`, `guint64`/`GstClockTime`
  values naturals reduced modulo `2 ^ 64`, `gint` values integers wrapped to the
  signed 32-bit range;
* `printf`-style output is a `String`; `%d` applied to a `guint` prints the value
  reinterpreted as a signed 32-bit integer;
* linked lists (`NvDsMetaList`) are Lean lists;
* the GStreamer runtime is an explicit oracle (`Env`) telling which element
  creations, pad requests and links succeed, and `main` produces the ordered
  trace of the calls it makes.
-/

namespace DeepstreamPeopleCount

/-! ## Constants -/

def MAX_DISPLAY_LEN : Nat := 64

def PGIE_CLASS_ID_PERSON : Int := 0

def MUXER_OUTPUT_WIDTH : Nat := 1920
def MUXER_OUTPUT_HEIGHT : Nat := 1080
def MUXER_OUTPUT_WIDTH_CAMERA : Nat := 1280
def MUXER_OUTPUT_HEIGHT_CAMERA : Nat := 720
def MUXER_BATCH_TIMEOUT_USEC : Nat := 40000

/-- The value `GST_CLOCK_TIME_NONE`, that is `(GstClockTime) -1`. -/
def GST_CLOCK_TIME_NONE : Nat := 2 ^ 64 - 1

/-! ## Machine integers and formatting -/

/-- Reduction of a natural to the range of `guint`. -/
def wrap_guint (n : Nat) : Nat := n % 2 ^ 32

/-- Reduction of a natural to the range of `guint64`. -/
def wrap_guint64 (n : Nat) : Nat := n % 2 ^ 64

/-- Wrapping of an integer to the range of `gint` (two's complement). -/
def wrap_gint (i : Int) : Int := (i + 2 ^ 31) % 2 ^ 32 - 2 ^ 31

/-- The `int` that `%d` reads when it is handed a `guint`. -/
def guint_as_int (n : Nat) : Int :=
  if n % 2 ^ 32 < 2 ^ 31 then (n % 2 ^ 32 : Nat) else (n % 2 ^ 32 : Nat) - 2 ^ 32

/-- Output of the conversion `%d` for an `int`. -/
def fmt_d (i : Int) : String := toString i

/-- The function `snprintf (buf, size, ...)`: at most `size - 1` characters of the
formatted text are stored. -/
def snprintf (size : Nat) (formatted : String) : String :=
  String.mk (formatted.data.take (size - 1))

/-! ## Metadata -/

structure perf_measure where
  pre_time : Nat
  total_time : Nat
  count : Nat
  deriving DecidableEq, Repr

structure NvDsObjectMeta where
  class_id : Int
  deriving DecidableEq, Repr

/-- Colour components; the source only stores the literals `0.0` and `1.0`. -/
structure NvOSD_ColorParams where
  red : Nat
  green : Nat
  blue : Nat
  alpha : Nat
  deriving DecidableEq, Repr

structure NvOSD_FontParams where
  font_name : String
  font_size : Nat
  font_color : NvOSD_ColorParams
  deriving DecidableEq, Repr

structure NvOSD_TextParams where
  display_text : String
  x_offset : Nat
  y_offset : Nat
  font_params : NvOSD_FontParams
  set_bg_clr : Nat
  text_bg_clr : NvOSD_ColorParams
  deriving DecidableEq, Repr

/-- A display meta; only `text_params[0]` is used by the probe. -/
structure NvDsDisplayMeta where
  num_labels : Nat
  text_params : NvOSD_TextParams
  deriving DecidableEq, Repr

structure NvDsFrameMeta where
  obj_meta_list : List NvDsObjectMeta
  display_meta_list : List NvDsDisplayMeta
  deriving DecidableEq, Repr

structure NvDsBatchMeta where
  frame_meta_list : List NvDsFrameMeta
  deriving DecidableEq, Repr

/-! ## The probe -/

/-- The throughput counter update at the head of the probe (lines 79-90); `now` and
the fields of `perf` are `guint64` values, the subtraction and the sum wrap modulo
`2 ^ 64`, the increment of `count` modulo `2 ^ 32`. -/
def perf_update (now : Nat) (perf : perf_measure) : perf_measure :=
  if perf.pre_time = GST_CLOCK_TIME_NONE then
    { perf with pre_time := now, total_time := GST_CLOCK_TIME_NONE }
  else
    let total_time :=
      if perf.total_time = GST_CLOCK_TIME_NONE then
        wrap_guint64 (now + 2 ^ 64 - perf.pre_time)
      else
        wrap_guint64 (perf.total_time + wrap_guint64 (now + 2 ^ 64 - perf.pre_time))
    { pre_time := now, total_time := total_time, count := wrap_guint (perf.count + 1) }

/-- The inner loop over `obj_meta_list` (lines 96-103); the pair is
`(num_rects, person_count)`. -/
def count_objects : List NvDsObjectMeta → Nat × Nat → Nat × Nat
  | [], acc => acc
  | obj_meta :: l_obj, (num_rects, person_count) =>
    if obj_meta.class_id = PGIE_CLASS_ID_PERSON then
      count_objects l_obj (wrap_guint (num_rects + 1), wrap_guint (person_count + 1))
    else
      count_objects l_obj (num_rects, person_count)

/-- The display meta the probe fills in for one frame (lines 104-127). -/
def make_display_meta (person_count : Nat) : NvDsDisplayMeta :=
  { num_labels := 1
    text_params :=
      { display_text :=
          snprintf MAX_DISPLAY_LEN ("Person = " ++ fmt_d (guint_as_int person_count) ++ " ")
        x_offset := 10
        y_offset := 12
        font_params :=
          { font_name := "Serif"
            font_size := 10
            font_color := { red := 1, green := 1, blue := 1, alpha := 1 } }
        set_bg_clr := 1
        text_bg_clr := { red := 0, green := 0, blue := 0, alpha := 1 } } }

/-- The function `nvds_add_display_meta_to_frame`. -/
def nvds_add_display_meta_to_frame (frame_meta : NvDsFrameMeta)
    (display_meta : NvDsDisplayMeta) : NvDsFrameMeta :=
  { frame_meta with display_meta_list := frame_meta.display_meta_list ++ [display_meta] }

/-- The outer loop over `frame_meta_list` (lines 92-130). The counters
`(num_rects, person_count)` are declared before the loop and are threaded
through all frames. -/
def process_frames : List NvDsFrameMeta → Nat × Nat → List NvDsFrameMeta × (Nat × Nat)
  | [], acc => ([], acc)
  | frame_meta :: l_frame, acc =>
    let acc1 := count_objects frame_meta.obj_meta_list acc
    let frame1 := nvds_add_display_meta_to_frame frame_meta (make_display_meta acc1.2)
    let rest := process_frames l_frame acc1
    (frame1 :: rest.1, rest.2)

/-- What one call of the probe leaves behind. -/
structure ProbeResult where
  batch : NvDsBatchMeta
  perf : perf_measure
  frame_number : Int
  log : String
  deriving DecidableEq, Repr

/-- The function `osd_sink_pad_buffer_probe`; `now` is the reading of
`g_get_monotonic_time ()`, `frame_number` the global of that name. -/
def osd_sink_pad_buffer_probe (now : Nat) (perf : perf_measure) (frame_number : Int)
    (batch_meta : NvDsBatchMeta) : ProbeResult :=
  let perf1 := perf_update now perf
  let r := process_frames batch_meta.frame_meta_list (0, 0)
  let num_rects := r.2.1
  let person_count := r.2.2
  { batch := { frame_meta_list := r.1 }
    perf := perf1
    frame_number := wrap_gint (frame_number + 1)
    log := "Frame Number = " ++ fmt_d frame_number ++ " Number of objects = " ++
      fmt_d (guint_as_int num_rects) ++ " Person Count = " ++
      fmt_d (guint_as_int person_count) ++ "\n" }

/-- The successive probe calls of one run: each call starts from the counter and
frame index the previous call left. An event is the clock reading of the call
paired with the batch it receives. -/
def probe_calls : perf_measure → Int → List (Nat × NvDsBatchMeta) → List ProbeResult
  | _, _, [] => []
  | perf, frame_number, (now, batch_meta) :: rest =>
    let r := osd_sink_pad_buffer_probe now perf frame_number batch_meta
    r :: probe_calls r.perf r.frame_number rest

/-- The counter as the last probe call left it (`perf` itself when there was no call). -/
def final_perf (perf : perf_measure) (results : List ProbeResult) : perf_measure :=
  match results.getLast? with
  | some r => r.perf
  | none => perf

/-- The state `main` gives to the counter before the pipeline runs (lines 202-204). -/
def perf_init : perf_measure :=
  { pre_time := GST_CLOCK_TIME_NONE, total_time := GST_CLOCK_TIME_NONE, count := 0 }

/-- The value printed after `Average fps` at the end of `main` (lines 477-481), when
one is printed. The source evaluates
`((perf_measure.count-1)*1000000.0)/perf_measure.total_time` in `double`; the value
here is the exact quotient, the rounding of the division is not modelled. The
subtraction `count-1` is a `guint` subtraction. -/
def average_fps (perf : perf_measure) : Option ℚ :=
  if perf.total_time ≠ 0 then
    some (((wrap_guint (perf.count + 2 ^ 32 - 1) * 1000000 : Nat) : ℚ) / (perf.total_time : ℚ))
  else
    none

/-! ## The pipeline assembly in `main` -/

/-- The calls `main` makes, in the order it makes them. An element is named by the
name it is created with (`stream-muxer` for `streammux`, `osd_conv` for `nvvidconv`,
and so on). A `g_object_set` call that sets several properties is one action per
property, with the value written as text; `gst_bin_add_many` is one `gst_bin_add`
per element and `gst_element_link_many` one `gst_element_link` per pair. The
construction of caps and the `unref` and free calls other than that of the pipeline
leave no action. -/
inductive Action where
  | cudaGetDevice
  | cudaGetDeviceProperties
  | g_printerr (text : String)
  | g_print (text : String)
  | print_average_fps (value : ℚ)
  | gst_init
  | g_main_loop_new
  | gst_pipeline_new (name : String)
  | gst_element_factory_make (factoryname name : String)
  | nvds_parse_streammux (element cfg_file_path group : String)
  | nvds_parse_file_source (element cfg_file_path group : String)
  | g_object_set (element property value : String)
  | gst_bin_add (element : String)
  | gst_element_link (src dest : String)
  | gst_element_get_request_pad (element pad_name : String)
  | gst_element_get_static_pad (element pad_name : String)
  | gst_pad_link (src_element src_pad sink_element sink_pad : String)
  | gst_pad_add_probe (element pad_name : String)
  | gst_bus_add_watch
  | gst_element_set_state (state : String)
  | g_main_loop_run
  | gst_object_unref_pipeline
  deriving DecidableEq, Repr

/-- What the platform answers to the calls of `main`: the CUDA device property
`prop.integrated`, and which creations, pad lookups and links succeed. -/
structure Env where
  integrated : Bool
  pipeline_new : Bool
  factory_make : String → String → Bool
  element_link : String → String → Bool
  get_request_pad : String → String → Bool
  get_static_pad : String → String → Bool
  pad_link : String → String → Bool

/-- The calls made by a run of `main` and the value it returns. -/
structure Outcome where
  trace : List Action
  status : Int
  deriving DecidableEq, Repr

/-- One call, then the rest of the run. -/
def call (a : Action) (k : Outcome) : Outcome :=
  { k with trace := a :: k.trace }

/-- Several calls, then the rest of the run. -/
def calls (l : List Action) (k : Outcome) : Outcome :=
  { k with trace := l ++ k.trace }

/-- The error exits of `main`: `g_printerr (msg); return -1;`. -/
def exit_with (msg : String) : Outcome :=
  { trace := [Action.g_printerr msg], status := -1 }

/-- The function `g_str_has_suffix`. -/
def g_str_has_suffix (str suffix : String) : Bool :=
  suffix.data.isSuffixOf str.data

/-- The function `gst_bin_add_many`. -/
def gst_bin_add_many (elements : List String) : List Action :=
  elements.map Action.gst_bin_add

/-- The function `gst_element_link_many`: links neighbours from left to right and
stops at the first link that fails. The result is the link calls made and whether
all of them succeeded. -/
def gst_element_link_many (env : Env) : List String → List Action × Bool
  | element_1 :: element_2 :: rest =>
    if env.element_link element_1 element_2 then
      let r := gst_element_link_many env (element_2 :: rest)
      (Action.gst_element_link element_1 element_2 :: r.1, r.2)
    else
      ([Action.gst_element_link element_1 element_2], false)
  | _ => ([], true)

/-- The tail of `main` from the registration of the probe to `return 0`
(lines 441-486); `events` are the probe calls the running pipeline makes before the
main loop returns. -/
def main_run (env : Env) (USE_CAMERA_INPUT : Bool) (arg : String)
    (events : List (Nat × NvDsBatchMeta)) : Outcome :=
  let results := probe_calls perf_init 0 events
  let perf := final_perf perf_init results
  call (Action.gst_element_get_static_pad "nv-onscreendisplay" "sink") <|
  calls (if env.get_static_pad "nv-onscreendisplay" "sink" then []
    else [Action.g_print "Unable to get sink pad\n"]) <|
  call (Action.gst_pad_add_probe "nv-onscreendisplay" "sink") <|
  call Action.gst_bus_add_watch <|
  call (Action.g_print (if USE_CAMERA_INPUT then "Using USB camera input\n"
    else "Using file: " ++ arg ++ "\n")) <|
  call (Action.gst_element_set_state "GST_STATE_PLAYING") <|
  call (Action.g_print "Running...\n") <|
  call Action.g_main_loop_run <|
  calls (results.map fun r => Action.g_print r.log) <|
  call (Action.g_print "Returned, stopping playback\n") <|
  call (Action.gst_element_set_state "GST_STATE_NULL") <|
  call (Action.g_print "Deleting pipeline\n") <|
  calls (match average_fps perf with
    | some v => [Action.print_average_fps v]
    | none => []) <|
  call Action.gst_object_unref_pipeline <|
  { trace := [], status := 0 }

/-- The part of `main` after the source-side chain (lines 347-439): the remaining
elements, the pad link into the muxer and the downstream chain, followed by the
rest `k` of the run. -/
def main_downstream (env : Env) (USE_CAMERA_INPUT : Bool) (k : Outcome) : Outcome :=
  call (Action.gst_bin_add "stream-muxer") <|
  call (Action.gst_element_factory_make "nvinfer" "primary-nvinference-engine") <|
  call (Action.g_object_set "primary-nvinference-engine" "config-file-path"
    "dstest1_usb_pgie_config.yml") <|
  call (Action.gst_element_factory_make "nvvideoconvert" "osd_conv") <|
  if !env.factory_make "nvvideoconvert" "osd_conv" then
    exit_with "Failed to create 'osd_conv'.\n"
  else
  call (Action.g_object_set "osd_conv" "gpu-id" "0") <|
  call (Action.g_object_set "osd_conv" "nvbuf-memory-type" "0") <|
  call (Action.gst_element_factory_make "nvdsosd" "nv-onscreendisplay") <|
  if !env.factory_make "nvdsosd" "nv-onscreendisplay" then
    exit_with "Failed to create 'nv-onscreendisplay'.\n"
  else
  call (Action.g_object_set "nv-onscreendisplay" "gpu-id" "0") <|
  calls (if env.integrated then
      [Action.gst_element_factory_make "nvegltransform" "nvegl-transform"] else []) <|
  call (Action.gst_element_factory_make "nveglglessink" "nvvideo-renderer") <|
  if !env.factory_make "nvinfer" "primary-nvinference-engine" ||
      !env.factory_make "nveglglessink" "nvvideo-renderer" then
    exit_with "One element could not be created. Exiting.\n"
  else
  if !(env.integrated && env.factory_make "nvegltransform" "nvegl-transform") &&
      env.integrated then
    exit_with "One tegra element could not be created. Exiting.\n"
  else
  call (Action.gst_element_get_request_pad "stream-muxer" "sink_0") <|
  if !env.get_request_pad "stream-muxer" "sink_0" then
    exit_with "Streammux request sink pad failed. Exiting.\n"
  else
  let upstream := if USE_CAMERA_INPUT then "src_cap_filter" else "nvv4l2-decoder"
  call (Action.gst_element_get_static_pad upstream "src") <|
  if !env.get_static_pad upstream "src" then
    exit_with "Decoder request src pad failed. Exiting.\n"
  else
  call (Action.gst_pad_link upstream "src" "stream-muxer" "sink_0") <|
  if !env.pad_link upstream "stream-muxer" then
    exit_with "Failed to link decoder to stream muxer. Exiting.\n"
  else
  if env.integrated then
    calls (gst_bin_add_many ["primary-nvinference-engine", "osd_conv",
      "nv-onscreendisplay", "nvegl-transform", "nvvideo-renderer"]) <|
    let l := gst_element_link_many env ["stream-muxer", "primary-nvinference-engine",
      "osd_conv", "nv-onscreendisplay", "nvegl-transform", "nvvideo-renderer"]
    calls l.1 <|
    if !l.2 then
      exit_with "Elements could not be linked: 2. Exiting.\n"
    else k
  else
    calls (gst_bin_add_many ["primary-nvinference-engine", "osd_conv",
      "nv-onscreendisplay", "nvvideo-renderer"]) <|
    let l := gst_element_link_many env ["stream-muxer", "primary-nvinference-engine",
      "osd_conv", "nv-onscreendisplay", "nvvideo-renderer"]
    calls l.1 <|
    if !l.2 then
      exit_with "Elements could not be linked: 2. Exiting.\n"
    else k

/-- The camera branch of `main` (lines 222-300), followed by the rest `k` of the run. -/
def main_camera_source (env : Env) (k : Outcome) : Outcome :=
  call (Action.g_object_set "stream-muxer" "batch-size" "1") <|
  call (Action.g_object_set "stream-muxer" "width" (toString MUXER_OUTPUT_WIDTH_CAMERA)) <|
  call (Action.g_object_set "stream-muxer" "height" (toString MUXER_OUTPUT_HEIGHT_CAMERA)) <|
  call (Action.g_object_set "stream-muxer" "batched-push-timeout"
    (toString MUXER_BATCH_TIMEOUT_USEC)) <|
  call (Action.g_object_set "stream-muxer" "live-source" "TRUE") <|
  call (Action.gst_element_factory_make "v4l2src" "src_elem") <|
  if !env.factory_make "v4l2src" "src_elem" then
    exit_with "Could not create 'src_elem'.\n"
  else
  call (Action.g_object_set "src_elem" "device" "/dev/video0") <|
  call (Action.gst_element_factory_make "capsfilter" "src_cap_filter1") <|
  if !env.factory_make "capsfilter" "src_cap_filter1" then
    exit_with "Could not create 'src_cap_filter1'.\n"
  else
  call (Action.gst_element_factory_make "capsfilter" "src_cap_filter") <|
  if !env.factory_make "capsfilter" "src_cap_filter" then
    exit_with "Could not create 'src_cap_filter'.\n"
  else
  calls (if !env.integrated then
      [Action.gst_element_factory_make "videoconvert" "nvvidconv1"] else []) <|
  if !env.integrated && !env.factory_make "videoconvert" "nvvidconv1" then
    exit_with "Failed to create 'nvvidconv1'.\n"
  else
  call (Action.g_object_set "src_cap_filter" "caps"
    "video/x-raw(memory:NVMM), format=NV12, framerate=30/1") <|
  call (Action.g_object_set "src_cap_filter1" "caps" "video/x-raw") <|
  call (Action.gst_element_factory_make "nvvideoconvert" "nvvidconv2") <|
  if !env.factory_make "nvvideoconvert" "nvvidconv2" then
    exit_with "Failed to create 'nvvidconv2'.\n"
  else
  call (Action.g_object_set "nvvidconv2" "nvbuf-memory-type" "0") <|
  if !env.integrated then
    calls (gst_bin_add_many ["src_elem", "src_cap_filter1", "nvvidconv1", "nvvidconv2",
      "src_cap_filter"]) <|
    let l := gst_element_link_many env ["src_elem", "src_cap_filter1", "nvvidconv1",
      "nvvidconv2", "src_cap_filter"]
    calls l.1 <|
    if !l.2 then
      exit_with "Elements could not be linked: 1. Exiting.\n"
    else k
  else
    calls (gst_bin_add_many ["src_elem", "src_cap_filter1", "nvvidconv2",
      "src_cap_filter"]) <|
    let l := gst_element_link_many env ["src_elem", "src_cap_filter1", "nvvidconv2",
      "src_cap_filter"]
    calls l.1 <|
    if !l.2 then
      exit_with "Elements could not be linked: 1. Exiting.\n"
    else k

/-- The file branch of `main` (lines 302-345), followed by the rest `k` of the run. -/
def main_file_source (env : Env) (arg : String) (k : Outcome) : Outcome :=
  call (Action.gst_element_factory_make "filesrc" "file-source") <|
  calls (if g_str_has_suffix arg ".h264" then
      [Action.g_object_set "file-source" "location" arg,
       Action.g_object_set "stream-muxer" "batch-size" "1",
       Action.g_object_set "stream-muxer" "width" (toString MUXER_OUTPUT_WIDTH),
       Action.g_object_set "stream-muxer" "height" (toString MUXER_OUTPUT_HEIGHT),
       Action.g_object_set "stream-muxer" "batched-push-timeout"
         (toString MUXER_BATCH_TIMEOUT_USEC),
       Action.g_object_set "stream-muxer" "live-source" "FALSE"]
    else []) <|
  calls (if g_str_has_suffix arg ".yml" || g_str_has_suffix arg ".yaml" then
      [Action.nvds_parse_file_source "file-source" arg "source"] else []) <|
  call (Action.gst_element_factory_make "h264parse" "h264-parser") <|
  call (Action.gst_element_factory_make "nvv4l2decoder" "nvv4l2-decoder") <|
  if !env.factory_make "filesrc" "file-source" ||
      !env.factory_make "h264parse" "h264-parser" ||
      !env.factory_make "nvv4l2decoder" "nvv4l2-decoder" then
    exit_with "One element could not be created. Exiting.\n"
  else
  calls (gst_bin_add_many ["file-source", "h264-parser", "nvv4l2-decoder"]) <|
  let l := gst_element_link_many env ["file-source", "h264-parser", "nvv4l2-decoder"]
  calls l.1 <|
  if !l.2 then
    exit_with "Elements could not be linked: 1. Exiting.\n"
  else k

/-- The construction part of `main` (lines 198-439): the initialisation, the muxer,
the source-side chain of the branch chosen by `argv[1]` and the downstream chain,
followed by the rest `k` of the run. -/
def main_build (env : Env) (arg : String) (k : Outcome) : Outcome :=
  let USE_CAMERA_INPUT : Bool := arg = "camera"
  call Action.gst_init <|
  call Action.g_main_loop_new <|
  call (Action.gst_pipeline_new "dstest1-usb-cam-pipeline") <|
  call (Action.gst_element_factory_make "nvstreammux" "stream-muxer") <|
  if !env.pipeline_new || !env.factory_make "nvstreammux" "stream-muxer" then
    exit_with "One element could not be created. Exiting.\n"
  else
  calls (if g_str_has_suffix arg ".yml" || g_str_has_suffix arg ".yaml" then
      [Action.nvds_parse_streammux "stream-muxer" arg "streammux"] else []) <|
  let rest := main_downstream env USE_CAMERA_INPUT k
  if USE_CAMERA_INPUT then
    main_camera_source env rest
  else
    main_file_source env arg rest

/-- The function `main`. `argv` is the whole argument vector (`argc` its length),
`events` the probe calls made while the main loop runs. -/
def main (env : Env) (argv : List String) (events : List (Nat × NvDsBatchMeta)) : Outcome :=
  call Action.cudaGetDevice <|
  call Action.cudaGetDeviceProperties <|
  if argv.length ≠ 2 then
    let argv0 := argv.headD "(null)"
    call (Action.g_printerr ("Usage: " ++ argv0 ++ " <yml file>\n")) <|
    call (Action.g_printerr ("OR: " ++ argv0 ++ " <H264 filename>\n")) <|
    call (Action.g_printerr ("OR: " ++ argv0 ++ " camera\n")) <|
    { trace := [], status := -1 }
  else
  let arg := argv.getD 1 ""
  let USE_CAMERA_INPUT : Bool := arg = "camera"
  main_build env arg (main_run env USE_CAMERA_INPUT arg events)

/-- The platform on which every creation, pad lookup and link succeeds. -/
def env_ok (integrated : Bool) : Env :=
  { integrated := integrated
    pipeline_new := true
    factory_make := fun _ _ => true
    element_link := fun _ _ => true
    get_request_pad := fun _ _ => true
    get_static_pad := fun _ _ => true
    pad_link := fun _ _ => true }

/-! ## The topology a run builds -/

/-- The names of the elements put into the pipeline, in the order of the
`gst_bin_add` calls. -/
def added_elements : List Action → List String
  | [] => []
  | Action.gst_bin_add e :: rest => e :: added_elements rest
  | _ :: rest => added_elements rest

/-- The factory with which the element `name` was requested, if it was. -/
def factory_of : List Action → String → Option String
  | [], _ => none
  | Action.gst_element_factory_make f n :: rest, name =>
    if n = name then some f else factory_of rest name
  | _ :: rest, name => factory_of rest name

/-- The element links attempted, in order, as `(src, dest)`. -/
def element_links : List Action → List (String × String)
  | [] => []
  | Action.gst_element_link a b :: rest => (a, b) :: element_links rest
  | _ :: rest => element_links rest

/-- The pad links attempted, in order, as `(src element, src pad, sink element, sink pad)`. -/
def pad_links : List Action → List (String × String × String × String)
  | [] => []
  | Action.gst_pad_link a p b q :: rest => (a, p, b, q) :: pad_links rest
  | _ :: rest => pad_links rest

/-- The nodes of the pipeline: each element put into it, with the factory it was
made by. -/
def pipeline_nodes (tr : List Action) : List (Option String × String) :=
  (added_elements tr).map fun name => (factory_of tr name, name)

/-- All links attempted, element links and pad links alike, as pairs of element names. -/
def all_links : List Action → List (String × String)
  | [] => []
  | Action.gst_element_link a b :: rest => (a, b) :: all_links rest
  | Action.gst_pad_link a _ b _ :: rest => (a, b) :: all_links rest
  | _ :: rest => all_links rest

/-- The chain of elements reached from `start` by following links downstream;
`fuel` bounds the number of steps. -/
def chain_from (links : List (String × String)) : Nat → String → List String
  | 0, start => [start]
  | fuel + 1, start =>
    match links.find? (fun p => p.1 = start) with
    | some p => start :: chain_from links fuel p.2
    | none => [start]

/-- The chain of elements that leads to `target` by following links upstream,
`target` itself left out; `fuel` bounds the number of steps. -/
def chain_to (links : List (String × String)) : Nat → String → List String
  | 0, _ => []
  | fuel + 1, target =>
    match links.find? (fun p => p.2 = target) with
    | some p => chain_to links fuel p.1 ++ [p.1]
    | none => []

/-- The link list with the node `x` taken out: links leaving `x` disappear and a
link entering `x` is redirected to the successor of `x`. -/
def bypass_node (x : String) (links : List (String × String)) : List (String × String) :=
  links.filterMap fun p =>
    if p.1 = x then none
    else if p.2 = x then
      match links.find? (fun q => q.1 = x) with
      | some q => some (p.1, q.2)
      | none => none
    else some p

/-- Neighbouring pairs of a list. -/
def chain_pairs : List String → List (String × String)
  | a :: b :: rest => (a, b) :: chain_pairs (b :: rest)
  | _ => []

/-- Whether every link attempt in a trace comes after the successful creation and
the addition to the pipeline of both elements it connects; `made` and `added` are
the elements created and added so far. A `gst_element_factory_make` call counts as
a creation when the platform `env` answers it with an element. -/
def links_follow_adds (env : Env) (made added : List String) : List Action → Bool
  | [] => true
  | Action.gst_element_factory_make f n :: rest =>
    links_follow_adds env (if env.factory_make f n then n :: made else made) added rest
  | Action.gst_bin_add e :: rest => links_follow_adds env made (e :: added) rest
  | Action.gst_element_link a b :: rest =>
    decide (a ∈ made) && decide (a ∈ added) && decide (b ∈ made) && decide (b ∈ added) &&
      links_follow_adds env made added rest
  | Action.gst_pad_link a _ b _ :: rest =>
    decide (a ∈ made) && decide (a ∈ added) && decide (b ∈ made) && decide (b ∈ added) &&
      links_follow_adds env made added rest
  | _ :: rest => links_follow_adds env made added rest

/-- Whether an action is an element creation or an addition to the pipeline. -/
def is_create_or_add : Action → Bool
  | Action.gst_element_factory_make _ _ => true
  | Action.gst_bin_add _ => true
  | _ => false

/-- Whether an action is a link attempt. -/
def is_link : Action → Bool
  | Action.gst_element_link _ _ => true
  | Action.gst_pad_link _ _ _ _ => true
  | _ => false

/-- Whether no element is created or added to the pipeline after a link attempt:
the reading of "every node is created and added before any link" on a trace. -/
def nodes_before_links : List Action → Bool
  | [] => true
  | a :: rest =>
    (if is_link a then rest.all (fun b => !is_create_or_add b) else true) &&
      nodes_before_links rest

/-- The names of the elements a trace requests from their factories, in order. -/
def created_elements : List Action → List String
  | [] => []
  | Action.gst_element_factory_make _ n :: rest => n :: created_elements rest
  | _ :: rest => created_elements rest

/-- The names of the elements requested from their factories after the first link
attempt of a trace, in order. -/
def created_after_link : List Action → List String
  | [] => []
  | a :: rest => if is_link a then created_elements rest else created_after_link rest

/-- The links attempted before the element `name` is requested from its factory (all
the links of the trace when it never is), in order. -/
def links_before_creation (name : String) : List Action → List (String × String)
  | [] => []
  | Action.gst_element_factory_make _ n :: rest =>
    if n = name then [] else links_before_creation name rest
  | Action.gst_element_link a b :: rest => (a, b) :: links_before_creation name rest
  | Action.gst_pad_link a _ b _ :: rest => (a, b) :: links_before_creation name rest
  | _ :: rest => links_before_creation name rest

/-- The successive differences `t2 - t1, t3 - t2, ...` of a list of clock readings,
each taken as the probe takes it, as a `guint64` subtraction. -/
def successive_differences : List Nat → List Nat
  | a :: b :: rest => wrap_guint64 (b + 2 ^ 64 - a) :: successive_differences (b :: rest)
  | _ => []

/-- Whether an action prints a line of the usage message. -/
def is_usage_line : Action → Bool
  | Action.g_printerr text =>
    "Usage: ".data.isPrefixOf text.data || "OR: ".data.isPrefixOf text.data
  | _ => false

/-- Whether an action belongs to the construction of the pipeline: a creation of
the pipeline or of an element, an addition, a pad request or a link. -/
def is_construction : Action → Bool
  | Action.gst_pipeline_new _ => true
  | Action.gst_element_factory_make _ _ => true
  | Action.gst_bin_add _ => true
  | Action.gst_element_link _ _ => true
  | Action.gst_element_get_request_pad _ _ => true
  | Action.gst_element_get_static_pad _ _ => true
  | Action.gst_pad_link _ _ _ _ => true
  | _ => false

/-- Whether an action neither creates an element, adds one to the pipeline nor
links two of them. -/
def inert (a : Action) : Bool :=
  match a with
  | Action.gst_element_factory_make _ _ => false
  | Action.gst_bin_add _ => false
  | Action.gst_element_link _ _ => false
  | Action.gst_pad_link _ _ _ _ => false
  | _ => true

/-! ## Vocabulary of the statements -/

/-- The source-side chain of a run: the elements leading to the muxer, each with its
factory. -/
def source_chain (tr : List Action) : List (Option String × String) :=
  (chain_to (all_links tr) (all_links tr).length "stream-muxer").map
    fun name => (factory_of tr name, name)

/-- The chain a run links from the muxer on, the muxer included, each element with its
factory. -/
def downstream_chain (tr : List Action) : List (Option String × String) :=
  (chain_from (all_links tr) (all_links tr).length "stream-muxer").map
    fun name => (factory_of tr name, name)

/-- The number of detections of a frame whose class is PERSON. -/
def persons (frame_meta : NvDsFrameMeta) : Nat :=
  frame_meta.obj_meta_list.countP fun obj_meta => obj_meta.class_id = PGIE_CLASS_ID_PERSON

/-- The number of PERSON detections in the frames `0, ..., i` of a frame list. -/
def persons_upto (frames : List NvDsFrameMeta) (i : Nat) : Nat :=
  ((frames.take (i + 1)).map persons).sum

/-- The text of the overlay record the probe attached to frame `i` of the batch it
returned: the last display meta of that frame. -/
def attached_text (r : ProbeResult) (i : Nat) : Option String :=
  match r.batch.frame_meta_list[i]? with
  | some frame_meta =>
    match frame_meta.display_meta_list.getLast? with
    | some display_meta => some display_meta.text_params.display_text
    | none => none
  | none => none

/-- The counter after the probe calls of `events`, starting from `perf_init`. -/
def perf_after (events : List (Nat × NvDsBatchMeta)) : perf_measure :=
  final_perf perf_init (probe_calls perf_init 0 events)

/-! ## Lemmas on formatting and counting -/

theorem fmt_d_natCast (n : Nat) : fmt_d (n : Int) = toString n := rfl

theorem guint_as_int_small (n : Nat) (h : n < 2 ^ 31) : guint_as_int n = (n : Int) := by
  have h1 : n % 2 ^ 32 = n := Nat.mod_eq_of_lt (by omega)
  unfold guint_as_int
  rw [h1, if_pos h]

theorem toString_length_le (n : Nat) (h : n < 2 ^ 31) : (toString n).length ≤ 10 := by
  have : n < 10 ^ 10 := by omega
  exact Nat.repr_length n 10 (by decide) this

/-- A text shorter than the buffer is stored whole. -/
theorem snprintf_short (size : Nat) (s : String) (h : s.length < size) :
    snprintf size s = s := by
  have : s.data.length ≤ size - 1 := by
    have : s.data.length = s.length := rfl
    omega
  simp [snprintf, List.take_of_length_le this]

/-- The overlay text for a count below `2 ^ 31`: no truncation, no sign. -/
theorem display_text_small (n : Nat) (h : n < 2 ^ 31) :
    (make_display_meta n).text_params.display_text = "Person = " ++ toString n ++ " " := by
  have hl := toString_length_le n h
  simp only [make_display_meta, guint_as_int_small n h, fmt_d_natCast]
  apply snprintf_short
  simp only [String.length_append, MAX_DISPLAY_LEN]
  have h1 : "Person = ".length = 9 := by decide
  have h2 : " ".length = 1 := by decide
  omega

/-- The inner loop adds the number of PERSON detections to both counters. -/
theorem count_objects_eq (objs : List NvDsObjectMeta) (a b : Nat) :
    count_objects objs (a % 2 ^ 32, b % 2 ^ 32) =
      ((a + objs.countP fun o => o.class_id = PGIE_CLASS_ID_PERSON) % 2 ^ 32,
       (b + objs.countP fun o => o.class_id = PGIE_CLASS_ID_PERSON) % 2 ^ 32) := by
  induction objs generalizing a b with
  | nil => simp [count_objects]
  | cons o rest ih =>
    by_cases h : o.class_id = PGIE_CLASS_ID_PERSON
    · simp only [count_objects, h, if_true, wrap_guint, List.countP_cons_of_pos, decide_True,
        Nat.mod_add_mod]
      rw [ih]
      congr 2 <;> omega
    · simp only [count_objects, h, if_false]
      rw [ih]
      simp [h]

theorem persons_upto_zero (f : NvDsFrameMeta) (fs : List NvDsFrameMeta) :
    persons_upto (f :: fs) 0 = persons f := by
  simp [persons_upto]

theorem persons_upto_succ (f : NvDsFrameMeta) (fs : List NvDsFrameMeta) (i : Nat) :
    persons_upto (f :: fs) (i + 1) = persons f + persons_upto fs i := by
  simp [persons_upto]

/-- Frame `i` leaves the outer loop with one more display meta, made from the
running person count. -/
theorem process_frames_get (fs : List NvDsFrameMeta) (a b i : Nat) (hi : i < fs.length) :
    (process_frames fs (a % 2 ^ 32, b % 2 ^ 32)).1[i]? =
      some (nvds_add_display_meta_to_frame (fs.get ⟨i, hi⟩)
        (make_display_meta ((b + persons_upto fs i) % 2 ^ 32))) := by
  induction fs generalizing a b i with
  | nil => simp at hi
  | cons f rest ih =>
    simp only [process_frames, count_objects_eq]
    cases i with
    | zero => simp [persons_upto_zero, persons]
    | succ j =>
      have hj : j < rest.length := by simpa using hi
      simp only [List.getElem?_cons_succ, List.get_cons_succ]
      rw [ih _ _ j hj, persons_upto_succ]
      simp [persons, Nat.add_assoc]

/-- The counters after the outer loop. -/
theorem process_frames_counters (fs : List NvDsFrameMeta) (a b : Nat) :
    (process_frames fs (a % 2 ^ 32, b % 2 ^ 32)).2 =
      ((a + (fs.map persons).sum) % 2 ^ 32, (b + (fs.map persons).sum) % 2 ^ 32) := by
  induction fs generalizing a b with
  | nil => simp [process_frames]
  | cons f rest ih =>
    simp only [process_frames, count_objects_eq]
    rw [ih]
    simp [persons, Nat.add_assoc]

theorem attached_text_eq (now : Nat) (perf : perf_measure) (fn : Int) (batch : NvDsBatchMeta)
    (i : Nat) (hi : i < batch.frame_meta_list.length) :
    attached_text (osd_sink_pad_buffer_probe now perf fn batch) i =
      some (make_display_meta
        (persons_upto batch.frame_meta_list i % 2 ^ 32)).text_params.display_text := by
  have h := process_frames_get batch.frame_meta_list 0 0 i hi
  simp only [Nat.zero_mod, Nat.zero_add] at h
  simp only [attached_text, osd_sink_pad_buffer_probe, h, nvds_add_display_meta_to_frame]
  simp

/-- The overlay text of frame `i` in terms of the running person count. -/
theorem overlay_text_aux (now : Nat) (perf : perf_measure) (frame_number : Int)
    (batch : NvDsBatchMeta) (i : Nat) (hi : i < batch.frame_meta_list.length)
    (hb : persons_upto batch.frame_meta_list i < 2 ^ 31) :
    attached_text (osd_sink_pad_buffer_probe now perf frame_number batch) i =
      some ("Person = " ++ toString (persons_upto batch.frame_meta_list i) ++ " ") := by
  rw [attached_text_eq now perf frame_number batch i hi,
    Nat.mod_eq_of_lt (by omega : persons_upto batch.frame_meta_list i < 2 ^ 32),
    display_text_small _ hb]

theorem wrap_gint_succ (i : Int) (h1 : -2 ^ 31 ≤ i) (h2 : i < 2 ^ 31 - 1) :
    wrap_gint (i + 1) = i + 1 := by
  unfold wrap_gint
  omega

/-- The `k`-th probe call of a run receives the frame index `frame_number + k`. -/
theorem probe_calls_get (events : List (Nat × NvDsBatchMeta)) (perf : perf_measure) (fn : Int)
    (k : Nat) (e : Nat × NvDsBatchMeta) (he : events[k]? = some e) (h0 : 0 ≤ fn)
    (hk : fn + k < 2 ^ 31) :
    ∃ perf1, (probe_calls perf fn events)[k]? =
      some (osd_sink_pad_buffer_probe e.1 perf1 (fn + k) e.2) := by
  induction events generalizing perf fn k with
  | nil => simp at he
  | cons e0 rest ih =>
    obtain ⟨now0, b0⟩ := e0
    cases k with
    | zero =>
      simp only [List.getElem?_cons_zero, Option.some.injEq] at he
      subst he
      exact ⟨perf, by simp [probe_calls]⟩
    | succ j =>
      simp only [List.getElem?_cons_succ] at he
      have hw : wrap_gint (fn + 1) = fn + 1 := wrap_gint_succ fn (by omega) (by omega)
      obtain ⟨p1, hp1⟩ := ih (osd_sink_pad_buffer_probe now0 perf fn b0).perf (fn + 1) j he
        (by omega) (by push_cast at hk ⊢; omega)
      refine ⟨p1, ?_⟩
      simp only [probe_calls, List.getElem?_cons_succ]
      have : (osd_sink_pad_buffer_probe now0 perf fn b0).frame_number = fn + 1 := hw
      rw [this, hp1]
      congr 2
      push_cast
      omega

/-! ## Lemmas on the throughput counter -/

theorem final_perf_cons (perf : perf_measure) (r : ProbeResult) (l : List ProbeResult) :
    final_perf perf (r :: l) = final_perf r.perf l := by
  cases l with
  | nil => simp [final_perf]
  | cons x l =>
    have h : (x :: l).getLast? = some ((x :: l).getLast (List.cons_ne_nil _ _)) :=
      List.getLast?_eq_getLast _ _
    simp [final_perf, List.getLast?_cons_cons, h]

theorem final_perf_probe_calls (events : List (Nat × NvDsBatchMeta)) (perf : perf_measure)
    (fn : Int) :
    final_perf perf (probe_calls perf fn events) =
      events.foldl (fun s e => perf_update e.1 s) perf := by
  induction events generalizing perf fn with
  | nil => simp [probe_calls, final_perf]
  | cons e rest ih =>
    obtain ⟨now, b⟩ := e
    simp only [probe_calls, final_perf_cons, List.foldl_cons]
    rw [ih]
    rfl

theorem perf_after_snoc (events : List (Nat × NvDsBatchMeta)) (e : Nat × NvDsBatchMeta) :
    perf_after (events ++ [e]) = perf_update e.1 (perf_after events) := by
  simp [perf_after, final_perf_probe_calls, List.foldl_append]

theorem perf_after_single (t1 : Nat) (b1 : NvDsBatchMeta) :
    perf_after [(t1, b1)] = { pre_time := t1, total_time := GST_CLOCK_TIME_NONE, count := 0 } := by
  simp [perf_after, final_perf_probe_calls, perf_update, perf_init]

/-- After at least one call, `pre_time` is the last reading and `count` the number
of calls after the first. -/
theorem perf_after_pre_count (t1 : Nat) (b1 : NvDsBatchMeta) (rest : List (Nat × NvDsBatchMeta))
    (h1 : t1 < GST_CLOCK_TIME_NONE) (hr : ∀ e ∈ rest, e.1 < GST_CLOCK_TIME_NONE) :
    (perf_after ((t1, b1) :: rest)).pre_time =
        (((t1, b1) :: rest).getLast (List.cons_ne_nil _ _)).1 ∧
      (perf_after ((t1, b1) :: rest)).count = rest.length % 2 ^ 32 := by
  induction rest using List.reverseRecOn with
  | nil => simp [perf_after_single]
  | append_singleton init e ih =>
    have hi : ∀ x ∈ init, x.1 < GST_CLOCK_TIME_NONE := fun x hx => hr x (by simp [hx])
    obtain ⟨ih1, ih2⟩ := ih hi
    have hlast : (((t1, b1) :: init).getLast (List.cons_ne_nil _ _)).1 < GST_CLOCK_TIME_NONE := by
      have := List.getLast_mem (List.cons_ne_nil (t1, b1) init)
      rcases List.mem_cons.1 this with h | h
      · rw [h]; exact h1
      · exact hi _ h
    have hne : (perf_after ((t1, b1) :: init)).pre_time ≠ GST_CLOCK_TIME_NONE := by
      rw [ih1]; exact Nat.ne_of_lt hlast
    simp only [← List.cons_append, perf_after_snoc, List.getLast_append_singleton]
    constructor
    · simp [perf_update, hne]
    · simp only [perf_update, hne, if_false, ih2, wrap_guint, List.length_append,
        List.length_singleton]
      omega

/-- After at least two calls, `total_time` is the last reading minus the first,
provided no intermediate total equals the sentinel. -/
theorem perf_after_total (t1 : Nat) (b1 : NvDsBatchMeta) (rest : List (Nat × NvDsBatchMeta))
    (h1 : t1 < GST_CLOCK_TIME_NONE) (hr : ∀ e ∈ rest, e.1 < GST_CLOCK_TIME_NONE)
    (hc : ∀ e ∈ rest.dropLast, wrap_guint64 (e.1 + 2 ^ 64 - t1) ≠ GST_CLOCK_TIME_NONE)
    (hne : rest ≠ []) :
    (perf_after ((t1, b1) :: rest)).total_time =
      wrap_guint64 ((((t1, b1) :: rest).getLast (List.cons_ne_nil _ _)).1 + 2 ^ 64 - t1) := by
  induction rest using List.reverseRecOn with
  | nil => exact absurd rfl hne
  | append_singleton init e ih =>
    have hi : ∀ x ∈ init, x.1 < GST_CLOCK_TIME_NONE := fun x hx => hr x (by simp [hx])
    have he : e.1 < GST_CLOCK_TIME_NONE := hr e (by simp)
    have hpc := perf_after_pre_count t1 b1 init h1 hi
    have hlast : (((t1, b1) :: init).getLast (List.cons_ne_nil _ _)).1 < GST_CLOCK_TIME_NONE := by
      have := List.getLast_mem (List.cons_ne_nil (t1, b1) init)
      rcases List.mem_cons.1 this with h | h
      · rw [h]; exact h1
      · exact hi _ h
    have hpre : (perf_after ((t1, b1) :: init)).pre_time ≠ GST_CLOCK_TIME_NONE := by
      rw [hpc.1]; exact Nat.ne_of_lt hlast
    rw [List.dropLast_concat] at hc
    simp only [← List.cons_append, perf_after_snoc, List.getLast_append_singleton]
    by_cases hin : init = []
    · subst hin
      simp [perf_after_single, perf_update, Nat.ne_of_lt h1]
    · have ihh := ih hi (fun x hx => hc x (List.mem_of_mem_dropLast hx)) hin
      have hmem : ((t1, b1) :: init).getLast (List.cons_ne_nil _ _) ∈ init := by
        rw [List.getLast_cons hin]
        exact List.getLast_mem hin
      have hnc := hc _ hmem
      rw [← ihh] at hnc
      unfold perf_update
      rw [if_neg hpre]
      simp only []
      rw [if_neg hnc, ihh, hpc.1]
      generalize (((t1, b1) :: init).getLast (List.cons_ne_nil _ _)).1 = p at hlast
      simp only [wrap_guint64, GST_CLOCK_TIME_NONE] at he h1 hlast ⊢
      omega

/-! ## Lemmas on the runs of `main` -/

@[simp] theorem call_status (a : Action) (k : Outcome) : (call a k).status = k.status := rfl
@[simp] theorem call_trace (a : Action) (k : Outcome) : (call a k).trace = a :: k.trace := rfl
@[simp] theorem calls_status (l : List Action) (k : Outcome) : (calls l k).status = k.status := rfl
@[simp] theorem calls_trace (l : List Action) (k : Outcome) :
    (calls l k).trace = l ++ k.trace := rfl
@[simp] theorem exit_with_status (m : String) : (exit_with m).status = -1 := rfl
@[simp] theorem exit_with_trace (m : String) : (exit_with m).trace = [Action.g_printerr m] := rfl

/-- A guarded exit succeeds exactly when the guard is passed and the rest succeeds. -/
theorem guard_status (c : Bool) (m : String) (k : Outcome) :
    (if c = true then exit_with m else k).status = 0 ↔ c = false ∧ k.status = 0 := by
  cases c <;> simp

theorem link_many_ok (env : Env) : ∀ l : List String, (gst_element_link_many env l).2 = true →
    (gst_element_link_many env l).1 =
      (chain_pairs l).map (fun p => Action.gst_element_link p.1 p.2)
  | [] => by simp [gst_element_link_many, chain_pairs]
  | [_] => by simp [gst_element_link_many, chain_pairs]
  | a :: b :: rest => by
    intro h
    by_cases hl : env.element_link a b = true
    · simp only [gst_element_link_many, hl, if_true] at h ⊢
      simp [chain_pairs, link_many_ok env (b :: rest) h]
    · simp [gst_element_link_many, hl] at h

@[simp] theorem env_ok_integrated (i : Bool) : (env_ok i).integrated = i := rfl
@[simp] theorem env_ok_pipeline_new (i : Bool) : (env_ok i).pipeline_new = true := rfl
@[simp] theorem env_ok_factory_make (i : Bool) (a b : String) :
    (env_ok i).factory_make a b = true := rfl
@[simp] theorem env_ok_element_link (i : Bool) (a b : String) :
    (env_ok i).element_link a b = true := rfl
@[simp] theorem env_ok_get_request_pad (i : Bool) (a b : String) :
    (env_ok i).get_request_pad a b = true := rfl
@[simp] theorem env_ok_get_static_pad (i : Bool) (a b : String) :
    (env_ok i).get_static_pad a b = true := rfl
@[simp] theorem env_ok_pad_link (i : Bool) (a b : String) : (env_ok i).pad_link a b = true := rfl

theorem link_many_env_ok (i : Bool) : ∀ l : List String,
    gst_element_link_many (env_ok i) l =
      ((chain_pairs l).map (fun p => Action.gst_element_link p.1 p.2), true)
  | [] => by simp [gst_element_link_many, chain_pairs]
  | [_] => by simp [gst_element_link_many, chain_pairs]
  | a :: b :: rest => by
    have := link_many_env_ok i (b :: rest)
    simp only [gst_element_link_many, env_ok_element_link, if_true, this, chain_pairs,
      List.map_cons]

theorem main_downstream_ok (env : Env) (c : Bool) (k : Outcome)
    (h : (main_downstream env c k).status = 0) :
    k.status = 0 ∧ (main_downstream env c k).trace =
      (main_downstream (env_ok env.integrated) c ⟨[], 0⟩).trace ++ k.trace := by
  cases hi : env.integrated
  · simp only [main_downstream, call_status, calls_status, guard_status, hi, if_true,
      if_false, Bool.false_eq_true] at h
    obtain ⟨h1, h2, h3, h4, h5, h6, h7, h8, h9⟩ := h
    refine ⟨h9, ?_⟩
    simp only [Bool.not_eq_false'] at h8
    simp at h4
    simp [main_downstream, hi, h1, h2, h3, h4, h5, h6, h7, h8, link_many_ok env _ h8,
      link_many_env_ok, chain_pairs, gst_bin_add_many]
  · simp only [main_downstream, call_status, calls_status, guard_status, hi, if_true,
      if_false, Bool.false_eq_true] at h
    obtain ⟨h1, h2, h3, h4, h5, h6, h7, h8, h9⟩ := h
    refine ⟨h9, ?_⟩
    simp only [Bool.not_eq_false'] at h8
    simp at h4
    simp [main_downstream, hi, h1, h2, h3, h4, h5, h6, h7, h8, link_many_ok env _ h8,
      link_many_env_ok, chain_pairs, gst_bin_add_many]

theorem main_camera_source_ok (env : Env) (k : Outcome)
    (h : (main_camera_source env k).status = 0) :
    k.status = 0 ∧ (main_camera_source env k).trace =
      (main_camera_source (env_ok env.integrated) ⟨[], 0⟩).trace ++ k.trace := by
  cases hi : env.integrated
  · simp only [main_camera_source, call_status, calls_status, guard_status, hi, if_true,
      if_false, Bool.false_eq_true, Bool.not_false, Bool.not_true] at h
    obtain ⟨h1, h2, h3, h4, h5, h6, h7⟩ := h
    refine ⟨h7, ?_⟩
    simp only [Bool.not_eq_false'] at h6
    simp at h4
    simp [main_camera_source, hi, h1, h2, h3, h4, h5, h6, link_many_ok env _ h6,
      link_many_env_ok, chain_pairs, gst_bin_add_many]
  · simp only [main_camera_source, call_status, calls_status, guard_status, hi, if_true,
      if_false, Bool.false_eq_true, Bool.not_false, Bool.not_true] at h
    obtain ⟨h1, h2, h3, -, h5, h6, h7⟩ := h
    refine ⟨h7, ?_⟩
    simp only [Bool.not_eq_false'] at h6
    simp [main_camera_source, hi, h1, h2, h3, h5, h6, link_many_ok env _ h6,
      link_many_env_ok, chain_pairs, gst_bin_add_many]

theorem main_file_source_ok (env : Env) (arg : String) (k : Outcome)
    (h : (main_file_source env arg k).status = 0) :
    k.status = 0 ∧ (main_file_source env arg k).trace =
      (main_file_source (env_ok env.integrated) arg ⟨[], 0⟩).trace ++ k.trace := by
  simp only [main_file_source, call_status, calls_status, guard_status] at h
  obtain ⟨h1, h2, h3⟩ := h
  refine ⟨h3, ?_⟩
  simp only [Bool.not_eq_false'] at h2
  simp [main_file_source, h1, h2, link_many_ok env _ h2, link_many_env_ok, chain_pairs,
    gst_bin_add_many]

theorem main_downstream_env_ok_status (i c : Bool) (k : Outcome) :
    (main_downstream (env_ok i) c k).status = k.status := by
  cases i <;> simp [main_downstream, link_many_env_ok]

theorem main_camera_source_env_ok_status (i : Bool) (k : Outcome) :
    (main_camera_source (env_ok i) k).status = k.status := by
  cases i <;> simp [main_camera_source, link_many_env_ok]

theorem main_file_source_env_ok_status (i : Bool) (arg : String) (k : Outcome) :
    (main_file_source (env_ok i) arg k).status = k.status := by
  simp [main_file_source, link_many_env_ok]

theorem main_build_ok (env : Env) (arg : String) (k : Outcome)
    (h : (main_build env arg k).status = 0) :
    k.status = 0 ∧ (main_build env arg k).trace =
      (main_build (env_ok env.integrated) arg ⟨[], 0⟩).trace ++ k.trace := by
  simp only [main_build, call_status, calls_status, guard_status] at h
  obtain ⟨h1, h2⟩ := h
  have hd : ∀ c, (main_downstream (env_ok env.integrated) c ⟨[], 0⟩).status = 0 :=
    fun c => main_downstream_env_ok_status _ c _
  by_cases hc : arg = "camera"
  · simp only [hc, decide_True, if_true] at h2
    obtain ⟨h3, h4⟩ := main_camera_source_ok env _ h2
    obtain ⟨h5, h6⟩ := main_downstream_ok env _ _ h3
    have h7 := (main_camera_source_ok (env_ok env.integrated)
      (main_downstream (env_ok env.integrated) true ⟨[], 0⟩)
      (by rw [main_camera_source_env_ok_status]; exact hd true)).2
    simp only [env_ok_integrated] at h7
    refine ⟨h5, ?_⟩
    simp [main_build, hc, h1, h4, h6, h7]
  · simp only [hc, decide_False, if_false, Bool.false_eq_true] at h2
    obtain ⟨h3, h4⟩ := main_file_source_ok env arg _ h2
    obtain ⟨h5, h6⟩ := main_downstream_ok env _ _ h3
    have h7 := (main_file_source_ok (env_ok env.integrated) arg
      (main_downstream (env_ok env.integrated) false ⟨[], 0⟩)
      (by rw [main_file_source_env_ok_status]; exact hd false)).2
    simp only [env_ok_integrated] at h7
    refine ⟨h5, ?_⟩
    simp [main_build, hc, h1, h4, h6, h7]

theorem main_run_status (env : Env) (c : Bool) (arg : String)
    (events : List (Nat × NvDsBatchMeta)) : (main_run env c arg events).status = 0 := by
  simp [main_run]

/-- A successful run of `main` had exactly two arguments and made the calls of the
all-succeeding construction, followed by those of the run phase. -/
theorem main_ok (env : Env) (argv : List String) (events : List (Nat × NvDsBatchMeta))
    (h : (main env argv events).status = 0) :
    ∃ a0 arg, argv = [a0, arg] ∧ (main env argv events).trace =
      Action.cudaGetDevice :: Action.cudaGetDeviceProperties ::
        ((main_build (env_ok env.integrated) arg ⟨[], 0⟩).trace ++
          (main_run env (decide (arg = "camera")) arg events).trace) := by
  by_cases hl : argv.length = 2
  · match argv, hl with
    | [a0, arg], _ =>
      refine ⟨a0, arg, rfl, ?_⟩
      have hb : (main_build env arg (main_run env (decide (arg = "camera")) arg events)).status
          = 0 := by
        simpa [main] using h
      simp [main, (main_build_ok env arg _ hb).2]
  · simp [main, hl] at h

theorem added_elements_append (l t : List Action) :
    added_elements (l ++ t) = added_elements l ++ added_elements t := by
  induction l with
  | nil => rfl
  | cons a l ih => cases a <;> simp [added_elements, ih]

theorem element_links_append (l t : List Action) :
    element_links (l ++ t) = element_links l ++ element_links t := by
  induction l with
  | nil => rfl
  | cons a l ih => cases a <;> simp [element_links, ih]

theorem pad_links_append (l t : List Action) :
    pad_links (l ++ t) = pad_links l ++ pad_links t := by
  induction l with
  | nil => rfl
  | cons a l ih => cases a <;> simp [pad_links, ih]

theorem all_links_append (l t : List Action) :
    all_links (l ++ t) = all_links l ++ all_links t := by
  induction l with
  | nil => rfl
  | cons a l ih => cases a <;> simp [all_links, ih]

theorem factory_of_append (l t : List Action) (name : String) :
    factory_of (l ++ t) name = (factory_of l name).or (factory_of t name) := by
  induction l with
  | nil => rfl
  | cons a l ih =>
    cases a
    case gst_element_factory_make f n =>
      by_cases h : n = name <;> simp [factory_of, h, ih]
    all_goals simp [factory_of, ih]

/-- A list of inert actions contributes nothing to the topology. -/
theorem inert_proj (l : List Action) (h : ∀ a ∈ l, inert a = true) :
    added_elements l = [] ∧ element_links l = [] ∧ pad_links l = [] ∧ all_links l = [] ∧
      ∀ n, factory_of l n = none := by
  induction l with
  | nil => simp [added_elements, element_links, pad_links, all_links, factory_of]
  | cons a l ih =>
    have h1 := h a (List.mem_cons_self _ _)
    have h2 := ih (fun x hx => h x (List.mem_cons_of_mem _ hx))
    cases a <;> simp_all [inert, added_elements, element_links, pad_links, all_links, factory_of]

theorem main_run_inert (env : Env) (c : Bool) (arg : String)
    (events : List (Nat × NvDsBatchMeta)) : ∀ a ∈ (main_run env c arg events).trace,
    inert a = true := by
  intro a ha
  simp only [main_run, call_trace, calls_trace, List.mem_cons, List.mem_append, List.mem_map] at ha
  rcases ha with h | h | h | h | h | h | h | h | h | h | h | h | h | h | h
  all_goals first
    | (subst h; rfl)
    | (obtain ⟨r, -, rfl⟩ := h; rfl)
    | (split at h <;> simp at h <;> subst h <;> rfl)
    | simp at h

/-- The projections of a successful run are those of the all-succeeding construction. -/
theorem main_ok_topology (env : Env) (argv : List String) (events : List (Nat × NvDsBatchMeta))
    (h : (main env argv events).status = 0) :
    ∃ a0 arg, argv = [a0, arg] ∧
      added_elements (main env argv events).trace =
        added_elements (main_build (env_ok env.integrated) arg ⟨[], 0⟩).trace ∧
      all_links (main env argv events).trace =
        all_links (main_build (env_ok env.integrated) arg ⟨[], 0⟩).trace ∧
      pad_links (main env argv events).trace =
        pad_links (main_build (env_ok env.integrated) arg ⟨[], 0⟩).trace ∧
      ∀ n, factory_of (main env argv events).trace n =
        factory_of (main_build (env_ok env.integrated) arg ⟨[], 0⟩).trace n := by
  obtain ⟨a0, arg, ha, ht⟩ := main_ok env argv events h
  obtain ⟨r1, -, r3, r4, r5⟩ :=
    inert_proj _ (main_run_inert env (decide (arg = "camera")) arg events)
  refine ⟨a0, arg, ha, ?_⟩
  rw [ht]
  generalize (main_build (env_ok env.integrated) arg ⟨[], 0⟩).trace = B
  generalize (main_run env (decide (arg = "camera")) arg events).trace = R at r1 r3 r4 r5
  refine ⟨?_, ?_, ?_, ?_⟩
  · simp only [added_elements, added_elements_append, r1, List.append_nil]
  · simp only [all_links, all_links_append, r4, List.append_nil]
  · simp only [pad_links, pad_links_append, r3, List.append_nil]
  · intro n
    simp only [factory_of, factory_of_append, r5, Option.or_none]

theorem camera_not_h264 (arg : String) (h : g_str_has_suffix arg ".h264" = true) :
    arg ≠ "camera" := by
  rintro rfl
  revert h
  decide

/-- The topology of the all-succeeding construction for a file argument. -/
theorem build_file_topology (i : Bool) (arg : String) (hc : arg ≠ "camera") :
    pipeline_nodes (main_build (env_ok i) arg ⟨[], 0⟩).trace =
        [(some "filesrc", "file-source"), (some "h264parse", "h264-parser"),
          (some "nvv4l2decoder", "nvv4l2-decoder"), (some "nvstreammux", "stream-muxer"),
          (some "nvinfer", "primary-nvinference-engine"), (some "nvvideoconvert", "osd_conv"),
          (some "nvdsosd", "nv-onscreendisplay")] ++
          (if i then [(some "nvegltransform", "nvegl-transform")] else []) ++
          [(some "nveglglessink", "nvvideo-renderer")] ∧
      all_links (main_build (env_ok i) arg ⟨[], 0⟩).trace =
        [("file-source", "h264-parser"), ("h264-parser", "nvv4l2-decoder"),
          ("nvv4l2-decoder", "stream-muxer"), ("stream-muxer", "primary-nvinference-engine"),
          ("primary-nvinference-engine", "osd_conv"), ("osd_conv", "nv-onscreendisplay")] ++
          (if i then [("nv-onscreendisplay", "nvegl-transform"),
            ("nvegl-transform", "nvvideo-renderer")]
           else [("nv-onscreendisplay", "nvvideo-renderer")]) ∧
      pad_links (main_build (env_ok i) arg ⟨[], 0⟩).trace =
        [("nvv4l2-decoder", "src", "stream-muxer", "sink_0")] := by
  cases i <;>
  cases h1 : g_str_has_suffix arg ".h264" <;>
  cases h2 : (g_str_has_suffix arg ".yml" || g_str_has_suffix arg ".yaml") <;>
  simp [main_build, main_file_source, main_downstream, link_many_env_ok, chain_pairs,
    gst_bin_add_many, hc, h1, h2, pipeline_nodes, added_elements, all_links, pad_links,
    factory_of]

/-- The topology of the all-succeeding construction for the camera. -/
theorem build_camera_topology (i : Bool) :
    pipeline_nodes (main_build (env_ok i) "camera" ⟨[], 0⟩).trace =
        [(some "v4l2src", "src_elem"), (some "capsfilter", "src_cap_filter1")] ++
          (if i then [] else [(some "videoconvert", "nvvidconv1")]) ++
          [(some "nvvideoconvert", "nvvidconv2"), (some "capsfilter", "src_cap_filter"),
          (some "nvstreammux", "stream-muxer"),
          (some "nvinfer", "primary-nvinference-engine"), (some "nvvideoconvert", "osd_conv"),
          (some "nvdsosd", "nv-onscreendisplay")] ++
          (if i then [(some "nvegltransform", "nvegl-transform")] else []) ++
          [(some "nveglglessink", "nvvideo-renderer")] ∧
      all_links (main_build (env_ok i) "camera" ⟨[], 0⟩).trace =
        [("src_elem", "src_cap_filter1")] ++
          (if i then [("src_cap_filter1", "nvvidconv2")]
           else [("src_cap_filter1", "nvvidconv1"), ("nvvidconv1", "nvvidconv2")]) ++
          [("nvvidconv2", "src_cap_filter"),
          ("src_cap_filter", "stream-muxer"), ("stream-muxer", "primary-nvinference-engine"),
          ("primary-nvinference-engine", "osd_conv"), ("osd_conv", "nv-onscreendisplay")] ++
          (if i then [("nv-onscreendisplay", "nvegl-transform"),
            ("nvegl-transform", "nvvideo-renderer")]
           else [("nv-onscreendisplay", "nvvideo-renderer")]) ∧
      pad_links (main_build (env_ok i) "camera" ⟨[], 0⟩).trace =
        [("src_cap_filter", "src", "stream-muxer", "sink_0")] := by
  cases i <;> decide

/-- The nodes and links of a successful run are those of the all-succeeding
construction. -/
theorem main_ok_nodes (env : Env) (argv : List String) (events : List (Nat × NvDsBatchMeta))
    (h : (main env argv events).status = 0) :
    ∃ a0 arg, argv = [a0, arg] ∧
      pipeline_nodes (main env argv events).trace =
        pipeline_nodes (main_build (env_ok env.integrated) arg ⟨[], 0⟩).trace ∧
      all_links (main env argv events).trace =
        all_links (main_build (env_ok env.integrated) arg ⟨[], 0⟩).trace ∧
      pad_links (main env argv events).trace =
        pad_links (main_build (env_ok env.integrated) arg ⟨[], 0⟩).trace ∧
      ∀ n, factory_of (main env argv events).trace n =
        factory_of (main_build (env_ok env.integrated) arg ⟨[], 0⟩).trace n := by
  obtain ⟨a0, arg, ha, r1, r2, r3, r4⟩ := main_ok_topology env argv events h
  refine ⟨a0, arg, ha, ?_, r2, r3, r4⟩
  simp only [pipeline_nodes, r1, r4]

theorem main_ok_chains (env : Env) (argv : List String) (events : List (Nat × NvDsBatchMeta))
    (h : (main env argv events).status = 0) :
    ∃ a0 arg, argv = [a0, arg] ∧
      source_chain (main env argv events).trace =
        source_chain (main_build (env_ok env.integrated) arg ⟨[], 0⟩).trace ∧
      downstream_chain (main env argv events).trace =
        downstream_chain (main_build (env_ok env.integrated) arg ⟨[], 0⟩).trace := by
  obtain ⟨a0, arg, ha, -, r2, -, r4⟩ := main_ok_nodes env argv events h
  refine ⟨a0, arg, ha, ?_, ?_⟩
  · simp only [source_chain, r2, r4]
  · simp only [downstream_chain, r2, r4]

theorem build_file_chains (i : Bool) (arg : String) (hc : arg ≠ "camera") :
    source_chain (main_build (env_ok i) arg ⟨[], 0⟩).trace =
      [(some "filesrc", "file-source"), (some "h264parse", "h264-parser"),
        (some "nvv4l2decoder", "nvv4l2-decoder")] ∧
    downstream_chain (main_build (env_ok i) arg ⟨[], 0⟩).trace =
      [(some "nvstreammux", "stream-muxer"), (some "nvinfer", "primary-nvinference-engine"),
        (some "nvvideoconvert", "osd_conv"), (some "nvdsosd", "nv-onscreendisplay")] ++
        (if i then [(some "nvegltransform", "nvegl-transform")] else []) ++
        [(some "nveglglessink", "nvvideo-renderer")] := by
  have hl := (build_file_topology i arg hc).2.1
  cases i <;>
  cases h1 : g_str_has_suffix arg ".h264" <;>
  cases h2 : (g_str_has_suffix arg ".yml" || g_str_has_suffix arg ".yaml") <;>
  · simp only [source_chain, downstream_chain, hl]
    simp [main_build, main_file_source, main_downstream, link_many_env_ok, chain_pairs,
      gst_bin_add_many, hc, h1, h2, factory_of, chain_to, chain_from]

theorem build_camera_chains (i : Bool) :
    source_chain (main_build (env_ok i) "camera" ⟨[], 0⟩).trace =
      [(some "v4l2src", "src_elem"), (some "capsfilter", "src_cap_filter1")] ++
        (if i then [] else [(some "videoconvert", "nvvidconv1")]) ++
        [(some "nvvideoconvert", "nvvidconv2"), (some "capsfilter", "src_cap_filter")] ∧
    downstream_chain (main_build (env_ok i) "camera" ⟨[], 0⟩).trace =
      [(some "nvstreammux", "stream-muxer"), (some "nvinfer", "primary-nvinference-engine"),
        (some "nvvideoconvert", "osd_conv"), (some "nvdsosd", "nv-onscreendisplay")] ++
        (if i then [(some "nvegltransform", "nvegl-transform")] else []) ++
        [(some "nveglglessink", "nvvideo-renderer")] := by
  cases i <;> decide

/-! ## Lemmas on all runs of `main`, failed ones included -/

theorem all_call (P : Action → Prop) (x : Action) (k : Outcome) :
    (∀ a ∈ (call x k).trace, P a) ↔ P x ∧ ∀ a ∈ k.trace, P a := by
  simp

theorem all_calls (P : Action → Prop) (l : List Action) (k : Outcome) :
    (∀ a ∈ (calls l k).trace, P a) ↔ (∀ a ∈ l, P a) ∧ ∀ a ∈ k.trace, P a := by
  rw [calls_trace]
  exact List.forall_mem_append

theorem all_guard (P : Action → Prop) (c : Bool) (m : String) (k : Outcome) :
    (∀ a ∈ (if c = true then exit_with m else k).trace, P a) ↔
      (c = true → P (Action.g_printerr m)) ∧ (c = false → ∀ a ∈ k.trace, P a) := by
  cases c <;> simp

theorem all_ite (P : Action → Prop) (c : Prop) [Decidable c] (x y : Outcome) :
    (∀ a ∈ (if c then x else y).trace, P a) ↔
      (c → ∀ a ∈ x.trace, P a) ∧ (¬ c → ∀ a ∈ y.trace, P a) := by
  by_cases h : c <;> simp [h]

theorem all_ite_list (P : Action → Prop) (c : Prop) [Decidable c] (x y : List Action) :
    (∀ a ∈ (if c then x else y), P a) ↔
      (c → ∀ a ∈ x, P a) ∧ (¬ c → ∀ a ∈ y, P a) := by
  by_cases h : c <;> simp [h]

theorem link_many_is_link (env : Env) : ∀ (l : List String),
    ∀ a ∈ (gst_element_link_many env l).1, ∃ x y, a = Action.gst_element_link x y
  | [] => by simp [gst_element_link_many]
  | [_] => by simp [gst_element_link_many]
  | a :: b :: rest => by
    intro x hx
    by_cases hl : env.element_link a b = true
    · simp only [gst_element_link_many, hl, if_true, List.mem_cons] at hx
      rcases hx with rfl | hx
      · exact ⟨_, _, rfl⟩
      · exact link_many_is_link env (b :: rest) x hx
    · simp only [gst_element_link_many, hl, Bool.false_eq_true, if_false,
        List.mem_singleton] at hx
      exact ⟨_, _, hx⟩

theorem link_many_not_usage (env : Env) (l : List String) :
    (∀ a ∈ (gst_element_link_many env l).1, is_usage_line a = false) = True := by
  refine eq_true ?_
  intro a ha
  obtain ⟨x, y, rfl⟩ := link_many_is_link env l a ha
  rfl

theorem main_downstream_no_usage (env : Env) (c : Bool) (k : Outcome)
    (hk : ∀ a ∈ k.trace, is_usage_line a = false) :
    ∀ a ∈ (main_downstream env c k).trace, is_usage_line a = false := by
  have hk1 := eq_true hk
  simp only [main_downstream, all_call, all_calls, all_guard, all_ite, all_ite_list,
    link_many_not_usage, hk1, gst_bin_add_many, List.forall_mem_cons,
    List.map_cons, List.map_nil, List.not_mem_nil, implies_true, and_self, and_true,
    IsEmpty.forall_iff, true_and]
  simp +decide [is_usage_line]

theorem main_camera_source_no_usage (env : Env) (k : Outcome)
    (hk : ∀ a ∈ k.trace, is_usage_line a = false) :
    ∀ a ∈ (main_camera_source env k).trace, is_usage_line a = false := by
  have hk1 := eq_true hk
  simp only [main_camera_source, all_call, all_calls, all_guard, all_ite, all_ite_list,
    link_many_not_usage, hk1, gst_bin_add_many, List.forall_mem_cons,
    List.map_cons, List.map_nil, List.not_mem_nil, implies_true, and_self, and_true,
    IsEmpty.forall_iff, true_and]
  simp +decide [is_usage_line]

theorem main_file_source_no_usage (env : Env) (arg : String) (k : Outcome)
    (hk : ∀ a ∈ k.trace, is_usage_line a = false) :
    ∀ a ∈ (main_file_source env arg k).trace, is_usage_line a = false := by
  have hk1 := eq_true hk
  simp only [main_file_source, all_call, all_calls, all_guard, all_ite, all_ite_list,
    link_many_not_usage, hk1, gst_bin_add_many, List.forall_mem_cons,
    List.map_cons, List.map_nil, List.not_mem_nil, implies_true, and_self, and_true,
    IsEmpty.forall_iff, true_and]
  simp +decide [is_usage_line]

theorem main_run_no_usage (env : Env) (c : Bool) (arg : String)
    (events : List (Nat × NvDsBatchMeta)) :
    ∀ a ∈ (main_run env c arg events).trace, is_usage_line a = false := by
  intro a ha
  simp only [main_run, call_trace, calls_trace, List.mem_cons, List.mem_append, List.mem_map] at ha
  rcases ha with h | h | h | h | h | h | h | h | h | h | h | h | h | h | h
  all_goals first
    | (subst h; rfl)
    | (obtain ⟨r, -, rfl⟩ := h; rfl)
    | (split at h <;> simp at h <;> subst h <;> rfl)
    | simp at h

theorem main_build_no_usage (env : Env) (arg : String) (k : Outcome)
    (hk : ∀ a ∈ k.trace, is_usage_line a = false) :
    ∀ a ∈ (main_build env arg k).trace, is_usage_line a = false := by
  have h1 := eq_true (main_camera_source_no_usage env _
    (main_downstream_no_usage env (decide (arg = "camera")) k hk))
  have h2 := eq_true (main_file_source_no_usage env arg _
    (main_downstream_no_usage env (decide (arg = "camera")) k hk))
  simp only [main_build, all_call, all_calls, all_guard, all_ite, all_ite_list,
    h1, h2, List.forall_mem_cons,
    List.not_mem_nil, implies_true, and_self, and_true,
    IsEmpty.forall_iff, true_and]
  simp +decide [is_usage_line]

theorem lfa_guard (env : Env) (m a : List String) (c : Bool) (msg : String) (k : Outcome) :
    links_follow_adds env m a (if c = true then exit_with msg else k).trace = true ↔
      (c = false → links_follow_adds env m a k.trace = true) := by
  cases c <;> simp [links_follow_adds]

theorem lfa_ite (env : Env) (m a : List String) (c : Prop) [Decidable c] (x y : Outcome) :
    links_follow_adds env m a (if c then x else y).trace = true ↔
      (c → links_follow_adds env m a x.trace = true) ∧
        (¬ c → links_follow_adds env m a y.trace = true) := by
  by_cases h : c <;> simp [h]

theorem lfa_ite_list (env : Env) (m a : List String) (c : Prop) [Decidable c] (x y t : List Action) :
    links_follow_adds env m a ((if c then x else y) ++ t) = true ↔
      (c → links_follow_adds env m a (x ++ t) = true) ∧
        (¬ c → links_follow_adds env m a (y ++ t) = true) := by
  by_cases h : c <;> simp [h]

theorem lfa_link_many (env : Env) (m a : List String) (t : List Action) :
    ∀ l : List String, (∀ x ∈ l, x ∈ m ∧ x ∈ a) →
      links_follow_adds env m a ((gst_element_link_many env l).1 ++ t) =
        links_follow_adds env m a t
  | [], _ => by simp [gst_element_link_many]
  | [_], _ => by simp [gst_element_link_many]
  | x :: y :: rest, h => by
    have hx := h x (by simp)
    have hy := h y (by simp)
    have ih := lfa_link_many env m a t (y :: rest) (fun z hz => h z (List.mem_cons_of_mem _ hz))
    by_cases hl : env.element_link x y = true
    · simp [gst_element_link_many, hl, links_follow_adds, hx, hy, ih]
    · simp [gst_element_link_many, hl, links_follow_adds, hx, hy]

theorem main_downstream_lfa (env : Env) (c : Bool) (k : Outcome) (m a : List String)
    (hk : ∀ m a, links_follow_adds env m a k.trace = true)
    (h1 : "stream-muxer" ∈ m)
    (h2 : (if c = true then "src_cap_filter" else "nvv4l2-decoder") ∈ m)
    (h3 : (if c = true then "src_cap_filter" else "nvv4l2-decoder") ∈ a) :
    links_follow_adds env m a (main_downstream env c k).trace = true := by
  by_cases g1 : env.factory_make "nvvideoconvert" "osd_conv" = true
  swap
  · simp [main_downstream, links_follow_adds, g1]
  by_cases g2 : env.factory_make "nvdsosd" "nv-onscreendisplay" = true
  swap
  · simp [main_downstream, links_follow_adds, g1, g2]
  by_cases g3 : env.factory_make "nvinfer" "primary-nvinference-engine" = true
  swap
  · simp [main_downstream, links_follow_adds, lfa_ite_list, g1, g2, g3]
  by_cases g4 : env.factory_make "nveglglessink" "nvvideo-renderer" = true
  swap
  · simp [main_downstream, links_follow_adds, lfa_ite_list, g1, g2, g3, g4]
  cases hi : env.integrated
  · cases c <;>
    simp [main_downstream, links_follow_adds, lfa_ite, gst_bin_add_many, lfa_link_many,
      hk, h1, h2, h3, g1, g2, g3, g4, hi] <;> simp_all
  · by_cases g5 : env.factory_make "nvegltransform" "nvegl-transform" = true
    swap
    · simp [main_downstream, links_follow_adds, g1, g2, g3, g4, g5, hi]
    cases c <;>
    simp [main_downstream, links_follow_adds, lfa_ite, gst_bin_add_many, lfa_link_many,
      hk, h1, h2, h3, g1, g2, g3, g4, g5, hi] <;> simp_all

theorem main_camera_source_lfa (env : Env) (k : Outcome) (m a : List String)
    (hk : ∀ m a, "stream-muxer" ∈ m → "src_cap_filter" ∈ m → "src_cap_filter" ∈ a →
      links_follow_adds env m a k.trace = true)
    (h1 : "stream-muxer" ∈ m) :
    links_follow_adds env m a (main_camera_source env k).trace = true := by
  by_cases g1 : env.factory_make "v4l2src" "src_elem" = true
  swap
  · simp [main_camera_source, links_follow_adds, g1]
  by_cases g2 : env.factory_make "capsfilter" "src_cap_filter1" = true
  swap
  · simp [main_camera_source, links_follow_adds, g1, g2]
  by_cases g3 : env.factory_make "capsfilter" "src_cap_filter" = true
  swap
  · simp [main_camera_source, links_follow_adds, g1, g2, g3]
  by_cases g4 : env.factory_make "nvvideoconvert" "nvvidconv2" = true
  swap
  · cases hi : env.integrated <;>
    simp [main_camera_source, links_follow_adds, lfa_ite, g1, g2, g3, g4, hi]
  cases hi : env.integrated
  · by_cases g5 : env.factory_make "videoconvert" "nvvidconv1" = true
    swap
    · simp [main_camera_source, links_follow_adds, g1, g2, g3, g4, g5, hi]
    simp [main_camera_source, links_follow_adds, lfa_ite, gst_bin_add_many, lfa_link_many,
      hk, h1, g1, g2, g3, g4, g5, hi]
  · simp [main_camera_source, links_follow_adds, lfa_ite, gst_bin_add_many, lfa_link_many,
      hk, h1, g1, g2, g3, g4, hi]

theorem main_file_source_lfa (env : Env) (arg : String) (k : Outcome) (m a : List String)
    (hk : ∀ m a, "stream-muxer" ∈ m → "nvv4l2-decoder" ∈ m → "nvv4l2-decoder" ∈ a →
      links_follow_adds env m a k.trace = true)
    (h1 : "stream-muxer" ∈ m) :
    links_follow_adds env m a (main_file_source env arg k).trace = true := by
  by_cases g1 : env.factory_make "filesrc" "file-source" = true
  swap
  · simp [main_file_source, links_follow_adds, lfa_ite_list, g1]
  by_cases g2 : env.factory_make "h264parse" "h264-parser" = true
  swap
  · simp [main_file_source, links_follow_adds, lfa_ite_list, g1, g2]
  by_cases g3 : env.factory_make "nvv4l2decoder" "nvv4l2-decoder" = true
  swap
  · simp [main_file_source, links_follow_adds, lfa_ite_list, g1, g2, g3]
  simp [main_file_source, links_follow_adds, lfa_ite, lfa_ite_list, gst_bin_add_many,
    lfa_link_many, hk, h1, g1, g2, g3]

theorem lfa_inert (env : Env) (l : List Action) (h : ∀ x ∈ l, inert x = true) (m a : List String) :
    links_follow_adds env m a l = true := by
  induction l generalizing m a with
  | nil => rfl
  | cons x l ih =>
    have hx := h x (List.mem_cons_self _ _)
    have hl := fun m a => ih (fun y hy => h y (List.mem_cons_of_mem _ hy)) m a
    cases x <;> simp_all [inert, links_follow_adds]

theorem main_build_lfa (env : Env) (arg : String) (k : Outcome)
    (hk : ∀ m a, links_follow_adds env m a k.trace = true) :
    links_follow_adds env [] [] (main_build env arg k).trace = true := by
  have hc : ∀ m a, "stream-muxer" ∈ m → "src_cap_filter" ∈ m → "src_cap_filter" ∈ a →
      links_follow_adds env m a (main_downstream env true k).trace = true :=
    fun m a h1 h2 h3 => main_downstream_lfa env true k m a hk h1 (by simpa using h2)
      (by simpa using h3)
  have hf : ∀ m a, "stream-muxer" ∈ m → "nvv4l2-decoder" ∈ m → "nvv4l2-decoder" ∈ a →
      links_follow_adds env m a (main_downstream env false k).trace = true :=
    fun m a h1 h2 h3 => main_downstream_lfa env false k m a hk h1 (by simpa using h2)
      (by simpa using h3)
  by_cases h : arg = "camera"
  · have hs : ∀ m a, "stream-muxer" ∈ m →
        links_follow_adds env m a (main_camera_source env (main_downstream env true k)).trace = true :=
      fun m a h1 => main_camera_source_lfa env _ m a hc h1
    simp only [main_build, h, decide_True, if_true]
    generalize main_camera_source env (main_downstream env true k) = K at hs ⊢
    by_cases g : env.factory_make "nvstreammux" "stream-muxer" = true <;>
    simp [links_follow_adds, lfa_ite, lfa_ite_list, hs, g]
  · have hs : ∀ m a, "stream-muxer" ∈ m →
        links_follow_adds env m a (main_file_source env arg (main_downstream env false k)).trace
          = true :=
      fun m a h1 => main_file_source_lfa env arg _ m a hf h1
    simp only [main_build, h, decide_False, if_false, Bool.false_eq_true]
    generalize main_file_source env arg (main_downstream env false k) = K at hs ⊢
    by_cases g : env.factory_make "nvstreammux" "stream-muxer" = true <;>
    simp [links_follow_adds, lfa_ite, lfa_ite_list, hs, g]

/-! ## Lemmas on the build order and on the branch taken -/

/-- The successive differences telescope modulo `2 ^ 64`. -/
theorem successive_differences_sum (t1 : Nat) (rest : List Nat)
    (h1 : t1 < 2 ^ 64) (hr : ∀ t ∈ rest, t < 2 ^ 64) :
    (successive_differences (t1 :: rest)).sum % 2 ^ 64 =
      ((t1 :: rest).getLast (List.cons_ne_nil _ _) + 2 ^ 64 - t1) % 2 ^ 64 := by
  induction rest generalizing t1 with
  | nil => simp [successive_differences]
  | cons b rest ih =>
    have hb : b < 2 ^ 64 := hr b (List.mem_cons_self _ _)
    have ih1 := ih b hb (fun t ht => hr t (List.mem_cons_of_mem _ ht))
    have hl : (b :: rest).getLast (List.cons_ne_nil _ _) < 2 ^ 64 := by
      have := List.getLast_mem (List.cons_ne_nil b rest)
      exact hr _ this
    simp only [successive_differences, List.sum_cons, List.getLast_cons (List.cons_ne_nil b rest)]
    generalize (successive_differences (b :: rest)).sum = S at ih1
    generalize (b :: rest).getLast (List.cons_ne_nil _ _) = L at ih1 hl
    simp only [wrap_guint64]
    omega

theorem created_elements_append (l t : List Action) :
    created_elements (l ++ t) = created_elements l ++ created_elements t := by
  induction l with
  | nil => rfl
  | cons a l ih => cases a <;> simp [created_elements, ih]

/-- Inert actions after a trace change neither the creations after its first link
nor the links before a creation. -/
theorem inert_order (r : List Action) (h : ∀ a ∈ r, inert a = true) :
    created_elements r = [] ∧ created_after_link r = [] ∧
      ∀ n, links_before_creation n r = [] := by
  induction r with
  | nil => simp [created_elements, created_after_link, links_before_creation]
  | cons a l ih =>
    have h1 := h a (List.mem_cons_self _ _)
    have h2 := ih (fun x hx => h x (List.mem_cons_of_mem _ hx))
    cases a <;>
    simp_all [inert, created_elements, created_after_link, links_before_creation, is_link]

theorem created_after_link_append (l r : List Action) (h : ∀ a ∈ r, inert a = true) :
    created_after_link (l ++ r) = created_after_link l := by
  induction l with
  | nil => simpa [created_after_link] using (inert_order r h).2.1
  | cons a l ih =>
    by_cases ha : is_link a = true
    · simp [created_after_link, ha, created_elements_append, (inert_order r h).1]
    · simp [created_after_link, ha, ih]

theorem links_before_creation_append (n : String) (l r : List Action)
    (h : ∀ a ∈ r, inert a = true) :
    links_before_creation n (l ++ r) = links_before_creation n l := by
  induction l with
  | nil => simpa [links_before_creation] using (inert_order r h).2.2 n
  | cons a l ih =>
    cases a
    case gst_element_factory_make f m =>
      by_cases hm : m = n <;> simp [links_before_creation, hm, ih]
    all_goals simp [links_before_creation, ih]

/-- The build order of a successful run is that of the all-succeeding construction. -/
theorem main_ok_order (env : Env) (argv : List String) (events : List (Nat × NvDsBatchMeta))
    (h : (main env argv events).status = 0) :
    ∃ a0 arg, argv = [a0, arg] ∧
      created_after_link (main env argv events).trace =
        created_after_link (main_build (env_ok env.integrated) arg ⟨[], 0⟩).trace ∧
      ∀ n, links_before_creation n (main env argv events).trace =
        links_before_creation n (main_build (env_ok env.integrated) arg ⟨[], 0⟩).trace := by
  obtain ⟨a0, arg, ha, ht⟩ := main_ok env argv events h
  have hi := main_run_inert env (decide (arg = "camera")) arg events
  refine ⟨a0, arg, ha, ?_⟩
  rw [ht]
  generalize (main_build (env_ok env.integrated) arg ⟨[], 0⟩).trace = B
  generalize (main_run env (decide (arg = "camera")) arg events).trace = R at hi
  refine ⟨?_, ?_⟩
  · simp only [created_after_link, is_link, Bool.false_eq_true, if_false,
      created_after_link_append B R hi]
  · intro n
    simp only [links_before_creation, links_before_creation_append n B R hi]

theorem build_file_order (i : Bool) (arg : String) (hc : arg ≠ "camera") :
    created_after_link (main_build (env_ok i) arg ⟨[], 0⟩).trace =
      ["primary-nvinference-engine", "osd_conv", "nv-onscreendisplay"] ++
        (if i then ["nvegl-transform"] else []) ++ ["nvvideo-renderer"] ∧
    links_before_creation "primary-nvinference-engine"
        (main_build (env_ok i) arg ⟨[], 0⟩).trace =
      [("file-source", "h264-parser"), ("h264-parser", "nvv4l2-decoder")] := by
  cases i <;>
  cases h1 : g_str_has_suffix arg ".h264" <;>
  cases h2 : (g_str_has_suffix arg ".yml" || g_str_has_suffix arg ".yaml") <;>
  simp [main_build, main_file_source, main_downstream, link_many_env_ok, chain_pairs,
    gst_bin_add_many, hc, h1, h2, created_after_link, created_elements,
    links_before_creation, is_link]

theorem build_camera_order (i : Bool) :
    created_after_link (main_build (env_ok i) "camera" ⟨[], 0⟩).trace =
      ["primary-nvinference-engine", "osd_conv", "nv-onscreendisplay"] ++
        (if i then ["nvegl-transform"] else []) ++ ["nvvideo-renderer"] ∧
    links_before_creation "primary-nvinference-engine"
        (main_build (env_ok i) "camera" ⟨[], 0⟩).trace =
      [("src_elem", "src_cap_filter1")] ++
        (if i then [("src_cap_filter1", "nvvidconv2")]
         else [("src_cap_filter1", "nvvidconv1"), ("nvvidconv1", "nvvidconv2")]) ++
        [("nvvidconv2", "src_cap_filter")] := by
  cases i <;> decide

/-- In a successful run the links made before the first downstream node is created
are those of the source-side chain, and the elements created after the first link
are the downstream nodes. -/
theorem main_ok_order_chains (env : Env) (argv : List String)
    (events : List (Nat × NvDsBatchMeta)) (h : (main env argv events).status = 0) :
    links_before_creation "primary-nvinference-engine" (main env argv events).trace =
      chain_pairs ((source_chain (main env argv events).trace).map Prod.snd) ∧
    links_before_creation "primary-nvinference-engine" (main env argv events).trace ≠ [] ∧
    created_after_link (main env argv events).trace =
      ((downstream_chain (main env argv events).trace).drop 1).map Prod.snd ∧
    created_after_link (main env argv events).trace ≠ [] := by
  obtain ⟨a0, arg, ha, o1, o2⟩ := main_ok_order env argv events h
  obtain ⟨b0, arg2, hb, c1, c2⟩ := main_ok_chains env argv events h
  subst ha
  simp only [List.cons.injEq, and_true] at hb
  obtain ⟨-, rfl⟩ := hb
  rw [o1, o2, c1, c2]
  by_cases hc : arg = "camera"
  · subst hc
    rw [(build_camera_order env.integrated).1, (build_camera_order env.integrated).2,
      (build_camera_chains env.integrated).1, (build_camera_chains env.integrated).2]
    cases env.integrated <;> decide
  · rw [(build_file_order env.integrated arg hc).1, (build_file_order env.integrated arg hc).2,
      (build_file_chains env.integrated arg hc).1, (build_file_chains env.integrated arg hc).2]
    cases env.integrated <;> decide

theorem link_many_not_camera (env : Env) (l : List String) :
    (∀ a ∈ (gst_element_link_many env l).1,
      a ≠ Action.gst_element_factory_make "v4l2src" "src_elem") = True := by
  refine eq_true ?_
  intro a ha
  obtain ⟨x, y, rfl⟩ := link_many_is_link env l a ha
  simp

theorem main_downstream_not_camera (env : Env) (c : Bool) (k : Outcome)
    (hk : ∀ a ∈ k.trace, a ≠ Action.gst_element_factory_make "v4l2src" "src_elem") :
    ∀ a ∈ (main_downstream env c k).trace,
      a ≠ Action.gst_element_factory_make "v4l2src" "src_elem" := by
  have hk1 := eq_true hk
  simp only [main_downstream, all_call, all_calls, all_guard, all_ite, all_ite_list,
    link_many_not_camera, hk1, gst_bin_add_many, List.forall_mem_cons,
    List.map_cons, List.map_nil, List.not_mem_nil, implies_true, and_self, and_true,
    IsEmpty.forall_iff, true_and]
  simp +decide

theorem main_file_source_not_camera (env : Env) (arg : String) (k : Outcome)
    (hk : ∀ a ∈ k.trace, a ≠ Action.gst_element_factory_make "v4l2src" "src_elem") :
    ∀ a ∈ (main_file_source env arg k).trace,
      a ≠ Action.gst_element_factory_make "v4l2src" "src_elem" := by
  have hk1 := eq_true hk
  simp only [main_file_source, all_call, all_calls, all_guard, all_ite, all_ite_list,
    link_many_not_camera, hk1, gst_bin_add_many, List.forall_mem_cons,
    List.map_cons, List.map_nil, List.not_mem_nil, implies_true, and_self, and_true,
    IsEmpty.forall_iff, true_and]
  simp +decide

theorem main_run_not_camera (env : Env) (c : Bool) (arg : String)
    (events : List (Nat × NvDsBatchMeta)) :
    ∀ a ∈ (main_run env c arg events).trace,
      a ≠ Action.gst_element_factory_make "v4l2src" "src_elem" := by
  intro a ha hc
  have := main_run_inert env c arg events a ha
  rw [hc] at this
  simp [inert] at this

/-- With one argument other than `camera`, `main` never creates the capture source. -/
theorem main_file_not_camera (env : Env) (a0 arg : String)
    (events : List (Nat × NvDsBatchMeta)) (hc : arg ≠ "camera") :
    ∀ a ∈ (main env [a0, arg] events).trace,
      a ≠ Action.gst_element_factory_make "v4l2src" "src_elem" := by
  have h1 := eq_true (main_file_source_not_camera env arg _
    (main_downstream_not_camera env false _ (main_run_not_camera env false arg events)))
  simp only [main, main_build, List.length_cons, List.length_nil, ne_eq, not_true_eq_false,
    if_false, hc, decide_False, Bool.false_eq_true, List.getD_cons_succ, List.getD_cons_zero,
    all_call, all_calls, all_guard, all_ite, all_ite_list, h1, List.forall_mem_cons,
    List.not_mem_nil, implies_true, and_self, and_true, IsEmpty.forall_iff, true_and,
    Nat.reduceAdd]
  simp +decide

/-- With one argument other than `camera`, `main` creates the file source as soon as
the pipeline and the muxer exist. -/
theorem main_file_creates_filesrc (env : Env) (a0 arg : String)
    (events : List (Nat × NvDsBatchMeta)) (hc : arg ≠ "camera")
    (hp : env.pipeline_new = true) (hm : env.factory_make "nvstreammux" "stream-muxer" = true) :
    Action.gst_element_factory_make "filesrc" "file-source" ∈
      (main env [a0, arg] events).trace := by
  have hf : ∀ k, Action.gst_element_factory_make "filesrc" "file-source" ∈
      (main_file_source env arg k).trace := by
    intro k
    simp [main_file_source]
  have := hf (main_downstream env false (main_run env false arg events))
  simp only [main, main_build, List.length_cons, List.length_nil, ne_eq, not_true_eq_false,
    if_false, hc, decide_False, Bool.false_eq_true, List.getD_cons_succ, List.getD_cons_zero,
    hp, hm, Bool.not_true, Bool.or_self, call_trace, calls_trace, Nat.reduceAdd]
  generalize (main_file_source env arg _).trace = T at this
  simp [this]

/-! ## The claims -/

/-- C1, as stated, does not hold: the overlay text of a frame is not always made from
the number of PERSON detections of that same frame. In a batch of two frames, the
first with one PERSON detection and the second with none, the second frame receives
the text for the count 1. -/
theorem overlay_text_per_frame_fails :
    ¬ ∀ (now : Nat) (perf : perf_measure) (frame_number : Int) (batch : NvDsBatchMeta)
        (i : Nat) (frame_meta : NvDsFrameMeta), batch.frame_meta_list[i]? = some frame_meta →
        attached_text (osd_sink_pad_buffer_probe now perf frame_number batch) i =
          some ("Person = " ++ toString (persons frame_meta) ++ " ") := by
  intro h
  have h1 := h 0 perf_init 0 ⟨[⟨[⟨0⟩], []⟩, ⟨[], []⟩]⟩ 1 ⟨[], []⟩ rfl
  revert h1
  decide

/-- C1, amended: for every batch and every frame `i` of it, the text of the overlay
record the probe attaches to that frame is `Person = `, the decimal number of PERSON
detections in the frames `0, ..., i` of the batch (the counter is not reset between
frames) and one space, as long as that number is below `2 ^ 31`. -/
theorem overlay_text_running_count (now : Nat) (perf : perf_measure) (frame_number : Int)
    (batch : NvDsBatchMeta) (i : Nat) (hi : i < batch.frame_meta_list.length)
    (hb : persons_upto batch.frame_meta_list i < 2 ^ 31) :
    attached_text (osd_sink_pad_buffer_probe now perf frame_number batch) i =
      some ("Person = " ++ toString (persons_upto batch.frame_meta_list i) ++ " ") :=
  overlay_text_aux now perf frame_number batch i hi hb

/-- C1, amended, on a batch of two frames with one and two PERSON detections: the
second frame receives the text for the count 3. -/
theorem overlay_text_running_count_witness :
    persons_upto [⟨[⟨0⟩, ⟨1⟩], []⟩, ⟨[⟨0⟩, ⟨0⟩], []⟩] 1 = 3 ∧
    attached_text (osd_sink_pad_buffer_probe 0 perf_init 0
      ⟨[⟨[⟨0⟩, ⟨1⟩], []⟩, ⟨[⟨0⟩, ⟨0⟩], []⟩]⟩) 1 = some ("Person = " ++ toString 3 ++ " ") :=
  ⟨by decide,
   overlay_text_running_count 0 perf_init 0 ⟨[⟨[⟨0⟩, ⟨1⟩], []⟩, ⟨[⟨0⟩, ⟨0⟩], []⟩]⟩ 1
    (by decide) (by decide)⟩

/-- C2, as stated, does not hold: a batch with an empty frame list is not a no-op.
From the frame index 0 the probe prints a log line and leaves the frame index 1. -/
theorem empty_batch_not_noop :
    ¬ ∀ (now : Nat) (perf : perf_measure) (frame_number : Int) (batch : NvDsBatchMeta),
        batch.frame_meta_list = [] →
        (osd_sink_pad_buffer_probe now perf frame_number batch).log = "" ∧
        (osd_sink_pad_buffer_probe now perf frame_number batch).frame_number = frame_number := by
  intro h
  have h1 := (h 0 perf_init 0 ⟨[]⟩ rfl).2
  revert h1
  decide

/-- C2, amended: for every batch, with or without frames, the probe increases
`frame_number` by exactly 1 (for a frame index below the largest `gint`), and for a
batch with an empty frame list it still prints the line
`Frame Number = n Number of objects = 0 Person Count = 0`. -/
theorem frame_number_advances (now : Nat) (perf : perf_measure) (frame_number : Int)
    (batch : NvDsBatchMeta) (h1 : -2 ^ 31 ≤ frame_number) (h2 : frame_number < 2 ^ 31 - 1) :
    (osd_sink_pad_buffer_probe now perf frame_number batch).frame_number = frame_number + 1 ∧
    (batch.frame_meta_list = [] →
      (osd_sink_pad_buffer_probe now perf frame_number batch).log =
        "Frame Number = " ++ toString frame_number ++
          " Number of objects = 0 Person Count = 0\n") := by
  refine ⟨wrap_gint_succ frame_number h1 h2, ?_⟩
  intro hb
  have h0 : fmt_d (guint_as_int 0) = "0" := by decide
  simp only [osd_sink_pad_buffer_probe, hb, process_frames, h0, String.append_assoc]
  rfl

/-- C2, amended, at the frame index 41 and an empty batch. -/
theorem frame_number_advances_witness :
    (osd_sink_pad_buffer_probe 7 perf_init 41 ⟨[]⟩).frame_number = 42 ∧
    (osd_sink_pad_buffer_probe 7 perf_init 41 ⟨[]⟩).log =
      "Frame Number = 41 Number of objects = 0 Person Count = 0\n" :=
  ⟨(frame_number_advances 7 perf_init 41 ⟨[]⟩ (by decide) (by decide)).1,
   (frame_number_advances 7 perf_init 41 ⟨[]⟩ (by decide) (by decide)).2 rfl⟩

/-- C3, as stated, does not hold. After one processed batch, and after none, the
report does yield a value, because `total_time` still holds the non-zero sentinel;
after two batches one second apart the report yields 0, not
`(2 - 1) * 1000000 / 1000000 = 1`. -/
theorem average_fps_claim_fails :
    average_fps (perf_after [(0, ⟨[]⟩)]) ≠ none ∧
    average_fps (perf_after []) ≠ none ∧
    (perf_after [(0, ⟨[]⟩), (1000000, ⟨[]⟩)]).total_time = 1000000 ∧
    average_fps (perf_after [(0, ⟨[]⟩), (1000000, ⟨[]⟩)]) = some 0 ∧
    (0 : ℚ) ≠ ((2 - 1) * 1000000 : ℚ) / 1000000 := by
  refine ⟨?_, ?_, by decide, ?_, by norm_num⟩
  · have : (perf_after [(0, ⟨[]⟩)]).total_time ≠ 0 := by decide
    simp [average_fps, this]
  · have : (perf_after []).total_time ≠ 0 := by decide
    simp [average_fps, this]
  · have h1 : (perf_after [(0, ⟨[]⟩), (1000000, ⟨[]⟩)]).total_time = 1000000 := by decide
    have h2 : (perf_after [(0, ⟨[]⟩), (1000000, ⟨[]⟩)]).count = 1 := by decide
    simp [average_fps, h1, h2, wrap_guint]

/-- C3, amended: after `n >= 2` processed batches (at most `2 ^ 32` of them, no clock
reading equal to the sentinel) the shutdown report yields no value when `total_time`
is 0 and otherwise the exact quotient `(n - 2) * 1000000 / total_time`, that is
`(count - 1) * 1000000 / total_time` with `count = n - 1`. -/
theorem average_fps_after_calls (events : List (Nat × NvDsBatchMeta))
    (h2 : 2 ≤ events.length) (hlen : events.length ≤ 2 ^ 32)
    (hr : ∀ e ∈ events, e.1 < GST_CLOCK_TIME_NONE) :
    average_fps (perf_after events) =
      if (perf_after events).total_time = 0 then none
      else some ((((events.length - 2) * 1000000 : Nat) : ℚ) /
        ((perf_after events).total_time : ℚ)) := by
  cases events with
  | nil => simp at h2
  | cons e rest =>
    obtain ⟨t1, b1⟩ := e
    have hpc := perf_after_pre_count t1 b1 rest (hr (t1, b1) (List.mem_cons_self _ _))
      (fun x hx => hr x (List.mem_cons_of_mem _ hx))
    simp only [List.length_cons] at h2 hlen
    have hw : wrap_guint ((perf_after ((t1, b1) :: rest)).count + 2 ^ 32 - 1) =
        rest.length + 1 - 2 := by
      rw [hpc.2]
      unfold wrap_guint
      omega
    unfold average_fps
    rw [hw]
    by_cases h0 : (perf_after ((t1, b1) :: rest)).total_time = 0
    · simp [h0]
    · simp [h0]

/-- C3, amended, after three batches one second apart: two seconds accumulated, and
the report is `(3 - 2) * 1000000 / 2000000 = 1/2`. -/
theorem average_fps_after_calls_witness :
    average_fps (perf_after [(0, ⟨[]⟩), (1000000, ⟨[]⟩), (2000000, ⟨[]⟩)]) = some (1 / 2) := by
  have h := average_fps_after_calls [(0, ⟨[]⟩), (1000000, ⟨[]⟩), (2000000, ⟨[]⟩)]
    (by decide) (by decide) (by decide)
  rw [h]
  have ht : (perf_after [(0, ⟨[]⟩), (1000000, ⟨[]⟩), (2000000, ⟨[]⟩)]).total_time = 2000000 := by
    decide
  rw [ht]
  norm_num

/-- C4, as stated, does not hold: with the single argument `badfile.txt`, which is
neither `camera` nor a path ending in `.h264`, `.yml` or `.yaml`, `main` prints no
usage line, creates the file source and links it, and on a platform where everything
succeeds returns 0. -/
theorem unrecognised_argument_builds :
    g_str_has_suffix "badfile.txt" ".h264" = false ∧
    g_str_has_suffix "badfile.txt" ".yml" = false ∧
    g_str_has_suffix "badfile.txt" ".yaml" = false ∧
    (main (env_ok false) ["prog", "badfile.txt"] []).status = 0 ∧
    (main (env_ok false) ["prog", "badfile.txt"] []).trace.any is_usage_line = false ∧
    Action.gst_element_factory_make "filesrc" "file-source" ∈
      (main (env_ok false) ["prog", "badfile.txt"] []).trace ∧
    Action.gst_element_link "file-source" "h264-parser" ∈
      (main (env_ok false) ["prog", "badfile.txt"] []).trace := by
  decide

/-- C4, amended: `main` prints the usage message exactly when the argument count is
other than one. With another count it prints the three usage lines and returns -1,
having made no other call than the device query; with one argument, of whatever form,
it prints no usage line and starts the construction of the pipeline. A single
argument other than `camera`, recognised or not, takes the file branch: the capture
source is never created, the file source is created as soon as the pipeline and the
muxer exist, and when the construction succeeds the source-side chain is `filesrc`,
`h264parse`, `nvv4l2decoder`. -/
theorem usage_iff_argument_count (env : Env) (argv : List String)
    (events : List (Nat × NvDsBatchMeta)) :
    (argv.length ≠ 2 →
      main env argv events =
        { trace := [Action.cudaGetDevice, Action.cudaGetDeviceProperties,
            Action.g_printerr ("Usage: " ++ argv.headD "(null)" ++ " <yml file>\n"),
            Action.g_printerr ("OR: " ++ argv.headD "(null)" ++ " <H264 filename>\n"),
            Action.g_printerr ("OR: " ++ argv.headD "(null)" ++ " camera\n")],
          status := -1 }) ∧
    (argv.length = 2 →
      (∀ a ∈ (main env argv events).trace, is_usage_line a = false) ∧
      ∃ rest, (main env argv events).trace =
        Action.cudaGetDevice :: Action.cudaGetDeviceProperties :: Action.gst_init ::
          Action.g_main_loop_new :: Action.gst_pipeline_new "dstest1-usb-cam-pipeline" ::
          Action.gst_element_factory_make "nvstreammux" "stream-muxer" :: rest) ∧
    (∀ a0 arg, argv = [a0, arg] → arg ≠ "camera" →
      (∀ a ∈ (main env argv events).trace,
        a ≠ Action.gst_element_factory_make "v4l2src" "src_elem") ∧
      (env.pipeline_new = true → env.factory_make "nvstreammux" "stream-muxer" = true →
        Action.gst_element_factory_make "filesrc" "file-source" ∈
          (main env argv events).trace) ∧
      ((main env argv events).status = 0 →
        source_chain (main env argv events).trace =
          [(some "filesrc", "file-source"), (some "h264parse", "h264-parser"),
            (some "nvv4l2decoder", "nvv4l2-decoder")])) := by
  refine ⟨?_, ?_, ?_⟩
  · intro h
    simp [main, h, call, calls]
  · intro h
    constructor
    · have hb := main_build_no_usage env (argv.getD 1 "")
        (main_run env (decide (argv.getD 1 "" = "camera")) (argv.getD 1 "") events)
        (main_run_no_usage _ _ _ _)
      intro a ha
      simp only [main, h, ne_eq, not_true_eq_false, if_false, call_trace, List.mem_cons] at ha
      rcases ha with rfl | rfl | ha
      · rfl
      · rfl
      · exact hb a ha
    · simp only [main, h, ne_eq, not_true_eq_false, if_false, call_trace, main_build]
      exact ⟨_, rfl⟩
  · rintro a0 arg rfl hc
    refine ⟨main_file_not_camera env a0 arg events hc,
      main_file_creates_filesrc env a0 arg events hc, ?_⟩
    intro h
    obtain ⟨b0, arg2, hb, c1, -⟩ := main_ok_chains env [a0, arg] events h
    simp only [List.cons.injEq, and_true] at hb
    obtain ⟨-, rfl⟩ := hb
    rw [c1, (build_file_chains env.integrated arg hc).1]

/-- C4, amended, without argument, with two arguments and with the single argument
`notes.txt`: -1 and no construction call in the first two runs; in the third no usage
line, no capture source, the file source created and the source-side chain of a
file. -/
theorem usage_iff_argument_count_witness :
    (main (env_ok false) ["prog"] []).status = -1 ∧
    (main (env_ok false) ["prog", "a", "b"] []).trace.any is_construction = false ∧
    (∀ a ∈ (main (env_ok true) ["prog", "notes.txt"] []).trace, is_usage_line a = false) ∧
    (∀ a ∈ (main (env_ok true) ["prog", "notes.txt"] []).trace,
      a ≠ Action.gst_element_factory_make "v4l2src" "src_elem") ∧
    Action.gst_element_factory_make "filesrc" "file-source" ∈
      (main (env_ok true) ["prog", "notes.txt"] []).trace ∧
    source_chain (main (env_ok true) ["prog", "notes.txt"] []).trace =
      [(some "filesrc", "file-source"), (some "h264parse", "h264-parser"),
        (some "nvv4l2decoder", "nvv4l2-decoder")] :=
  ⟨by rw [(usage_iff_argument_count (env_ok false) ["prog"] []).1 (by decide)],
   by rw [(usage_iff_argument_count (env_ok false) ["prog", "a", "b"] []).1 (by decide)]; decide,
   ((usage_iff_argument_count (env_ok true) ["prog", "notes.txt"] []).2.1 rfl).1,
   ((usage_iff_argument_count (env_ok true) ["prog", "notes.txt"] []).2.2 "prog" "notes.txt"
      rfl (by decide)).1,
   ((usage_iff_argument_count (env_ok true) ["prog", "notes.txt"] []).2.2 "prog" "notes.txt"
      rfl (by decide)).2.1 rfl rfl,
   ((usage_iff_argument_count (env_ok true) ["prog", "notes.txt"] []).2.2 "prog" "notes.txt"
      rfl (by decide)).2.2 (by decide)⟩

/-- C5, as stated, does not hold: for the camera the whole pipelines of the two
capability flags differ in more than the generic convert node. The integrated
pipeline has the node `nvegl-transform`, which the discrete one has not, so neither
the node sequence nor the link order of the discrete pipeline without `nvvidconv1` is
that of the integrated pipeline. -/
theorem camera_topologies_not_one_node_apart :
    (some "nvegltransform", "nvegl-transform") ∈
      pipeline_nodes (main (env_ok true) ["prog", "camera"] []).trace ∧
    (some "nvegltransform", "nvegl-transform") ∉
      pipeline_nodes (main (env_ok false) ["prog", "camera"] []).trace ∧
    (pipeline_nodes (main (env_ok false) ["prog", "camera"] []).trace).erase
        (some "videoconvert", "nvvidconv1") ≠
      pipeline_nodes (main (env_ok true) ["prog", "camera"] []).trace ∧
    bypass_node "nvvidconv1" (all_links (main (env_ok false) ["prog", "camera"] []).trace) ≠
      all_links (main (env_ok true) ["prog", "camera"] []).trace := by
  decide

/-- C5, amended: for the camera, whenever the construction succeeds, the discrete
pipeline contains both the generic convert node (`videoconvert`, `nvvidconv1`) and the
accelerated one (`nvvideoconvert`, `nvvidconv2`), the integrated pipeline contains the
accelerated one and no `videoconvert` node, the source-side chains are identical but
for the generic convert node, and the whole pipelines (node sequence and link order)
are identical but for that node and the node `nvegl-transform`, which the integrated
pipeline has and the discrete one has not. -/
theorem camera_topologies (envd envi : Env) (a0 a1 : String)
    (evd evi : List (Nat × NvDsBatchMeta))
    (hd : envd.integrated = false) (hi : envi.integrated = true)
    (sd : (main envd [a0, "camera"] evd).status = 0)
    (si : (main envi [a1, "camera"] evi).status = 0) :
    (some "videoconvert", "nvvidconv1") ∈ pipeline_nodes (main envd [a0, "camera"] evd).trace ∧
    (some "nvvideoconvert", "nvvidconv2") ∈ pipeline_nodes (main envd [a0, "camera"] evd).trace ∧
    (some "nvvideoconvert", "nvvidconv2") ∈ pipeline_nodes (main envi [a1, "camera"] evi).trace ∧
    (∀ p ∈ pipeline_nodes (main envi [a1, "camera"] evi).trace,
      p.1 ≠ some "videoconvert" ∧ p.2 ≠ "nvvidconv1") ∧
    (some "nvegltransform", "nvegl-transform") ∈
      pipeline_nodes (main envi [a1, "camera"] evi).trace ∧
    (∀ p ∈ pipeline_nodes (main envd [a0, "camera"] evd).trace,
      p.1 ≠ some "nvegltransform" ∧ p.2 ≠ "nvegl-transform") ∧
    source_chain (main envi [a1, "camera"] evi).trace =
      (source_chain (main envd [a0, "camera"] evd).trace).erase
        (some "videoconvert", "nvvidconv1") ∧
    (pipeline_nodes (main envi [a1, "camera"] evi).trace).erase
        (some "nvegltransform", "nvegl-transform") =
      (pipeline_nodes (main envd [a0, "camera"] evd).trace).erase
        (some "videoconvert", "nvvidconv1") ∧
    bypass_node "nvegl-transform" (all_links (main envi [a1, "camera"] evi).trace) =
      bypass_node "nvvidconv1" (all_links (main envd [a0, "camera"] evd).trace) ∧
    (pipeline_nodes (main envi [a1, "camera"] evi).trace).length =
      (pipeline_nodes (main envd [a0, "camera"] evd).trace).length ∧
    (∃ x y, ("nvvidconv1", x) ∈ all_links (main envd [a0, "camera"] evd).trace ∧
      (y, "nvvidconv1") ∈ all_links (main envd [a0, "camera"] evd).trace) ∧
    (∃ x y, ("nvegl-transform", x) ∈ all_links (main envi [a1, "camera"] evi).trace ∧
      (y, "nvegl-transform") ∈ all_links (main envi [a1, "camera"] evi).trace) := by
  obtain ⟨b0, arg, ha, n1, l1, -, -⟩ := main_ok_nodes envd [a0, "camera"] evd sd
  obtain ⟨b0', arg', ha', s1, -⟩ := main_ok_chains envd [a0, "camera"] evd sd
  obtain ⟨c0, arg2, hb, n2, l2, -, -⟩ := main_ok_nodes envi [a1, "camera"] evi si
  obtain ⟨c0', arg2', hb', s2, -⟩ := main_ok_chains envi [a1, "camera"] evi si
  simp only [List.cons.injEq, and_true] at ha ha' hb hb'
  obtain ⟨-, rfl⟩ := ha
  obtain ⟨-, rfl⟩ := ha'
  obtain ⟨-, rfl⟩ := hb
  obtain ⟨-, rfl⟩ := hb'
  rw [n1, l1, s1, n2, l2, s2, hd, hi]
  refine ⟨by decide, by decide, by decide, by decide, by decide, by decide, by decide,
    by decide, by decide, by decide, ?_, ?_⟩
  · exact ⟨"nvvidconv2", "src_cap_filter1", by decide, by decide⟩
  · exact ⟨"nvvideo-renderer", "nv-onscreendisplay", by decide, by decide⟩

/-- C5, amended, on the platforms where every call succeeds. -/
theorem camera_topologies_witness :
    (main (env_ok false) ["prog", "camera"] []).status = 0 ∧
    (main (env_ok true) ["prog", "camera"] []).status = 0 ∧
    (some "nvegltransform", "nvegl-transform") ∈
      pipeline_nodes (main (env_ok true) ["prog", "camera"] []).trace ∧
    (pipeline_nodes (main (env_ok true) ["prog", "camera"] []).trace).erase
        (some "nvegltransform", "nvegl-transform") =
      (pipeline_nodes (main (env_ok false) ["prog", "camera"] []).trace).erase
        (some "videoconvert", "nvvidconv1") :=
  ⟨by decide, by decide,
   (camera_topologies (env_ok false) (env_ok true) "prog" "prog" [] [] rfl rfl
    (by decide) (by decide)).2.2.2.2.1,
   (camera_topologies (env_ok false) (env_ok true) "prog" "prog" [] [] rfl rfl
    (by decide) (by decide)).2.2.2.2.2.2.2.1⟩

/-- C6: for every argument ending in `.h264` and either capability flag, whenever the
construction succeeds, the source-side chain is file read, parse, decode in that
order (`filesrc`, `h264parse`, `nvv4l2decoder`), the `src` pad of the decoder is
linked to the pad `sink_0` of the muxer, and the pipeline contains no `v4l2src`
node, exactly one `h264parse` node and exactly one `nvv4l2decoder` node. -/
theorem encoded_file_source_chain (env : Env) (a0 arg : String)
    (events : List (Nat × NvDsBatchMeta)) (hs : g_str_has_suffix arg ".h264" = true)
    (h : (main env [a0, arg] events).status = 0) :
    source_chain (main env [a0, arg] events).trace =
      [(some "filesrc", "file-source"), (some "h264parse", "h264-parser"),
        (some "nvv4l2decoder", "nvv4l2-decoder")] ∧
    pad_links (main env [a0, arg] events).trace =
      [("nvv4l2-decoder", "src", "stream-muxer", "sink_0")] ∧
    (pipeline_nodes (main env [a0, arg] events).trace).countP
      (fun p => p.1 = some "v4l2src") = 0 ∧
    (pipeline_nodes (main env [a0, arg] events).trace).countP
      (fun p => p.1 = some "h264parse") = 1 ∧
    (pipeline_nodes (main env [a0, arg] events).trace).countP
      (fun p => p.1 = some "nvv4l2decoder") = 1 := by
  have hc := camera_not_h264 arg hs
  obtain ⟨b0, arg1, ha, r1, -, r3, -⟩ := main_ok_nodes env [a0, arg] events h
  obtain ⟨b0', arg2, ha', c1, -⟩ := main_ok_chains env [a0, arg] events h
  simp only [List.cons.injEq, and_true] at ha ha'
  obtain ⟨-, rfl⟩ := ha
  obtain ⟨-, rfl⟩ := ha'
  obtain ⟨t1, -, t3⟩ := build_file_topology env.integrated arg hc
  rw [r1, r3, c1, t1, t3, (build_file_chains env.integrated arg hc).1]
  cases env.integrated <;> simp

/-- C6 on the argument `sample_720p.h264`, with either capability flag, on the
platforms where every call succeeds. -/
theorem encoded_file_source_chain_witness :
    g_str_has_suffix "sample_720p.h264" ".h264" = true ∧
    (main (env_ok true) ["prog", "sample_720p.h264"] []).status = 0 ∧
    source_chain (main (env_ok true) ["prog", "sample_720p.h264"] []).trace =
      [(some "filesrc", "file-source"), (some "h264parse", "h264-parser"),
        (some "nvv4l2decoder", "nvv4l2-decoder")] ∧
    pad_links (main (env_ok false) ["prog", "sample_720p.h264"] []).trace =
      [("nvv4l2-decoder", "src", "stream-muxer", "sink_0")] :=
  ⟨by decide, by decide,
   (encoded_file_source_chain (env_ok true) "prog" "sample_720p.h264" [] (by decide)
    (by decide)).1,
   (encoded_file_source_chain (env_ok false) "prog" "sample_720p.h264" [] (by decide)
    (by decide)).2.1⟩

/-- C7: in a run of probe calls from the initial state (`frame_number = 0`), when the
`k`-th call (`k` counted from 0, below `2 ^ 31`) receives a single-frame batch with `p`
PERSON detections (`p` below `2 ^ 31`), that call prints the line
`Frame Number = k Number of objects = p Person Count = p` and attaches the overlay
text `Person = p ` to the frame; detections of other classes count in neither
number. -/
theorem single_frame_log (events : List (Nat × NvDsBatchMeta)) (k now : Nat)
    (frame_meta : NvDsFrameMeta) (he : events[k]? = some (now, ⟨[frame_meta]⟩))
    (hk : k < 2 ^ 31) (hp : persons frame_meta < 2 ^ 31) :
    ∃ r, (probe_calls perf_init 0 events)[k]? = some r ∧
      r.log = "Frame Number = " ++ toString k ++ " Number of objects = " ++
        toString (persons frame_meta) ++ " Person Count = " ++
        toString (persons frame_meta) ++ "\n" ∧
      attached_text r 0 = some ("Person = " ++ toString (persons frame_meta) ++ " ") := by
  obtain ⟨p1, hp1⟩ := probe_calls_get events perf_init 0 k _ he (le_refl 0)
    (by push_cast; omega)
  refine ⟨_, hp1, ?_, ?_⟩
  · have hc := process_frames_counters [frame_meta] 0 0
    simp only [Nat.zero_mod, Nat.zero_add, List.map_cons, List.map_nil, List.sum_cons,
      List.sum_nil, Nat.add_zero] at hc
    have hm : persons frame_meta % 2 ^ 32 = persons frame_meta := Nat.mod_eq_of_lt (by omega)
    simp only [osd_sink_pad_buffer_probe, hc, hm, guint_as_int_small _ hp, fmt_d_natCast,
      zero_add]
  · have := overlay_text_aux now p1 (0 + (k : Int)) ⟨[frame_meta]⟩ 0 (by simp)
      (by simpa [persons_upto] using hp)
    simpa [persons_upto] using this

/-- C7 on the three-frame scenario: a frame with two PERSON detections, a frame
without detections, a frame with one PERSON and one detection of another class. The
log lines carry the counts 2, 0, 1 and the overlays are `Person = 2 `, `Person = 0 `,
`Person = 1 `. -/
theorem single_frame_log_witness :
    (probe_calls perf_init 0
        [(0, ⟨[⟨[⟨0⟩, ⟨0⟩], []⟩]⟩), (40000, ⟨[⟨[], []⟩]⟩),
          (80000, ⟨[⟨[⟨0⟩, ⟨2⟩], []⟩]⟩)]).map ProbeResult.log =
      ["Frame Number = 0 Number of objects = 2 Person Count = 2\n",
       "Frame Number = 1 Number of objects = 0 Person Count = 0\n",
       "Frame Number = 2 Number of objects = 1 Person Count = 1\n"] ∧
    (probe_calls perf_init 0
        [(0, ⟨[⟨[⟨0⟩, ⟨0⟩], []⟩]⟩), (40000, ⟨[⟨[], []⟩]⟩),
          (80000, ⟨[⟨[⟨0⟩, ⟨2⟩], []⟩]⟩)]).map (fun r => attached_text r 0) =
      [some "Person = 2 ", some "Person = 0 ", some "Person = 1 "] ∧
    ∃ r, (probe_calls perf_init 0
        [(0, ⟨[⟨[⟨0⟩, ⟨0⟩], []⟩]⟩), (40000, ⟨[⟨[], []⟩]⟩),
          (80000, ⟨[⟨[⟨0⟩, ⟨2⟩], []⟩]⟩)])[2]? = some r ∧
      r.log = "Frame Number = " ++ toString 2 ++ " Number of objects = " ++
        toString (persons ⟨[⟨0⟩, ⟨2⟩], []⟩) ++ " Person Count = " ++
        toString (persons ⟨[⟨0⟩, ⟨2⟩], []⟩) ++ "\n" ∧
      attached_text r 0 = some ("Person = " ++ toString (persons ⟨[⟨0⟩, ⟨2⟩], []⟩) ++ " ") :=
  ⟨by decide, by decide,
   single_frame_log
    [(0, ⟨[⟨[⟨0⟩, ⟨0⟩], []⟩]⟩), (40000, ⟨[⟨[], []⟩]⟩), (80000, ⟨[⟨[⟨0⟩, ⟨2⟩], []⟩]⟩)]
    2 80000 ⟨[⟨0⟩, ⟨2⟩], []⟩ rfl (by decide) (by decide)⟩

/-- C8: from the initial counter and for `n >= 1` probe calls with clock readings
`t1, ..., tn`, none equal to the sentinel and none below the first (the clock is the
monotonic clock), `n - 1` below `2 ^ 32`: afterwards `pre_time = tn` and
`count = n - 1`; `total_time` is still the sentinel when `n = 1`; and when `n >= 2`,
`total_time` is the sum of the successive differences, that is `tn - t1`, modulo
`2 ^ 64`. -/
theorem perf_counter_after_calls (t1 : Nat) (b1 : NvDsBatchMeta)
    (rest : List (Nat × NvDsBatchMeta))
    (h1 : t1 < GST_CLOCK_TIME_NONE) (hr : ∀ e ∈ rest, e.1 < GST_CLOCK_TIME_NONE)
    (hm : ∀ e ∈ rest, t1 ≤ e.1) (hn : rest.length < 2 ^ 32) :
    (perf_after ((t1, b1) :: rest)).pre_time =
        (((t1, b1) :: rest).getLast (List.cons_ne_nil _ _)).1 ∧
    (perf_after ((t1, b1) :: rest)).count = rest.length ∧
    (rest = [] → (perf_after ((t1, b1) :: rest)).total_time = GST_CLOCK_TIME_NONE) ∧
    (rest ≠ [] →
      (perf_after ((t1, b1) :: rest)).total_time =
        (successive_differences (((t1, b1) :: rest).map Prod.fst)).sum % 2 ^ 64 ∧
      (perf_after ((t1, b1) :: rest)).total_time =
        ((((t1, b1) :: rest).getLast (List.cons_ne_nil _ _)).1 + 2 ^ 64 - t1) % 2 ^ 64) := by
  have hpc := perf_after_pre_count t1 b1 rest h1 hr
  have hc : ∀ e ∈ rest.dropLast, wrap_guint64 (e.1 + 2 ^ 64 - t1) ≠ GST_CLOCK_TIME_NONE := by
    intro e he
    have h2 := hr e (List.mem_of_mem_dropLast he)
    have h3 := hm e (List.mem_of_mem_dropLast he)
    simp only [wrap_guint64, GST_CLOCK_TIME_NONE] at h1 h2 ⊢
    omega
  refine ⟨hpc.1, ?_, ?_, ?_⟩
  · rw [hpc.2]
    exact Nat.mod_eq_of_lt hn
  · intro h
    subst h
    simp [perf_after_single]
  · intro h
    have ht := perf_after_total t1 b1 rest h1 hr hc h
    refine ⟨?_, ht⟩
    rw [ht]
    have hs := successive_differences_sum t1 (rest.map Prod.fst)
      (by simp only [GST_CLOCK_TIME_NONE] at h1; omega)
      (by
        intro t ht
        obtain ⟨e, he, rfl⟩ := List.mem_map.1 ht
        have := hr e he
        simp only [GST_CLOCK_TIME_NONE] at this
        omega)
    simp only [List.map_cons]
    rw [hs]
    have hg : (t1 :: rest.map Prod.fst).getLast (List.cons_ne_nil _ _) =
        (((t1, b1) :: rest).getLast (List.cons_ne_nil _ _)).1 := by
      have := List.getLast_map (f := Prod.fst) (l := (t1, b1) :: rest) (by simp)
      simpa using this
    rw [hg]
    rfl

/-- C8 on the readings 100, 140, 200 (`pre_time = 200`, `count = 2`,
`total_time = 100`) and on the single reading 100 (`total_time` still the sentinel). -/
theorem perf_counter_after_calls_witness :
    (perf_after [(100, ⟨[]⟩), (140, ⟨[]⟩), (200, ⟨[]⟩)]).pre_time = 200 ∧
    (perf_after [(100, ⟨[]⟩), (140, ⟨[]⟩), (200, ⟨[]⟩)]).count = 2 ∧
    (perf_after [(100, ⟨[]⟩), (140, ⟨[]⟩), (200, ⟨[]⟩)]).total_time = 100 ∧
    (perf_after [(100, ⟨[]⟩)]).total_time = GST_CLOCK_TIME_NONE := by
  have h := perf_counter_after_calls 100 ⟨[]⟩ [(140, ⟨[]⟩), (200, ⟨[]⟩)] (by decide)
    (by decide) (by decide) (by decide)
  have h0 := perf_counter_after_calls 100 ⟨[]⟩ [] (by decide) (by decide) (by decide)
    (by decide)
  exact ⟨h.1, h.2.1, (h.2.2.2 (by decide)).2, h0.2.2.1 rfl⟩

/-- C9: for every argument and capability flag, whenever the construction succeeds,
the chain linked from the muxer on is `nvstreammux`, `nvinfer`, `nvvideoconvert`
(`osd_conv`), `nvdsosd`, `nveglglessink` when the GPU is discrete and the same chain
with `nvegltransform` between `nvdsosd` and the sink when it is integrated; the
pipeline has an `nvegltransform` node if and only if the GPU is integrated. -/
theorem downstream_chain_fixed (env : Env) (argv : List String)
    (events : List (Nat × NvDsBatchMeta)) (h : (main env argv events).status = 0) :
    downstream_chain (main env argv events).trace =
      (if env.integrated then
        [(some "nvstreammux", "stream-muxer"), (some "nvinfer", "primary-nvinference-engine"),
          (some "nvvideoconvert", "osd_conv"), (some "nvdsosd", "nv-onscreendisplay"),
          (some "nvegltransform", "nvegl-transform"), (some "nveglglessink", "nvvideo-renderer")]
      else
        [(some "nvstreammux", "stream-muxer"), (some "nvinfer", "primary-nvinference-engine"),
          (some "nvvideoconvert", "osd_conv"), (some "nvdsosd", "nv-onscreendisplay"),
          (some "nveglglessink", "nvvideo-renderer")]) ∧
    ((∃ p ∈ pipeline_nodes (main env argv events).trace, p.1 = some "nvegltransform") ↔
      env.integrated = true) := by
  obtain ⟨b0, arg, ha, r1, -, -, -⟩ := main_ok_nodes env argv events h
  obtain ⟨b0', arg2, ha', -, c2⟩ := main_ok_chains env argv events h
  subst ha
  simp only [List.cons.injEq, and_true] at ha'
  obtain ⟨-, rfl⟩ := ha'
  rw [r1, c2]
  by_cases hc : arg = "camera"
  · subst hc
    rw [(build_camera_chains env.integrated).2, (build_camera_topology env.integrated).1]
    cases env.integrated <;> simp
  · rw [(build_file_chains env.integrated arg hc).2,
      (build_file_topology env.integrated arg hc).1]
    cases env.integrated <;> simp

/-- C9 for the camera on an integrated GPU and for a file on a discrete one, on the
platforms where every call succeeds. -/
theorem downstream_chain_fixed_witness :
    (main (env_ok true) ["prog", "camera"] []).status = 0 ∧
    downstream_chain (main (env_ok true) ["prog", "camera"] []).trace =
        [(some "nvstreammux", "stream-muxer"), (some "nvinfer", "primary-nvinference-engine"),
          (some "nvvideoconvert", "osd_conv"), (some "nvdsosd", "nv-onscreendisplay"),
          (some "nvegltransform", "nvegl-transform"), (some "nveglglessink", "nvvideo-renderer")] ∧
    downstream_chain (main (env_ok false) ["prog", "sample.h264"] []).trace =
        [(some "nvstreammux", "stream-muxer"), (some "nvinfer", "primary-nvinference-engine"),
          (some "nvvideoconvert", "osd_conv"), (some "nvdsosd", "nv-onscreendisplay"),
          (some "nveglglessink", "nvvideo-renderer")] :=
  ⟨by decide,
   (downstream_chain_fixed (env_ok true) ["prog", "camera"] [] (by decide)).1,
   (downstream_chain_fixed (env_ok false) ["prog", "sample.h264"] [] (by decide)).1⟩

/-- C10, as stated, does not hold: `main` links the source-side chain before the
downstream nodes exist. For the camera on a discrete GPU the call number 25 links
`src_elem` to `src_cap_filter1`, while the node `primary-nvinference-engine` of the
final topology is only created by call number 30 and added by call number 41; the
same order is found for a file and for an integrated GPU. -/
theorem link_before_create :
    (main (env_ok false) ["prog", "camera"] []).trace[25]? =
      some (Action.gst_element_link "src_elem" "src_cap_filter1") ∧
    (main (env_ok false) ["prog", "camera"] []).trace[30]? =
      some (Action.gst_element_factory_make "nvinfer" "primary-nvinference-engine") ∧
    (main (env_ok false) ["prog", "camera"] []).trace[41]? =
      some (Action.gst_bin_add "primary-nvinference-engine") ∧
    (some "nvinfer", "primary-nvinference-engine") ∈
      pipeline_nodes (main (env_ok false) ["prog", "camera"] []).trace ∧
    nodes_before_links (main (env_ok false) ["prog", "camera"] []).trace = false ∧
    nodes_before_links (main (env_ok true) ["prog", "camera"] []).trace = false ∧
    nodes_before_links (main (env_ok false) ["prog", "sample.h264"] []).trace = false ∧
    nodes_before_links (main (env_ok true) ["prog", "sample.h264"] []).trace = false := by
  decide

/-- C10, amended: in every run of `main`, whatever the argument, the capability flag
and the calls that fail, each link attempt (element link or pad link) comes after the
successful creation and the addition to the pipeline of the two elements it connects.
The nodes of the final topology are not all created before the first link: in every
run that completes the construction, the links attempted before the first downstream
node (`primary-nvinference-engine`) is created are exactly the links of the
source-side chain, at least one, and the elements created after the first link are
exactly the nodes of the downstream chain after the muxer. -/
theorem links_after_their_nodes (env : Env) (argv : List String)
    (events : List (Nat × NvDsBatchMeta)) :
    links_follow_adds env [] [] (main env argv events).trace = true ∧
    ((main env argv events).status = 0 →
      links_before_creation "primary-nvinference-engine" (main env argv events).trace =
        chain_pairs ((source_chain (main env argv events).trace).map Prod.snd) ∧
      links_before_creation "primary-nvinference-engine" (main env argv events).trace ≠ [] ∧
      created_after_link (main env argv events).trace =
        ((downstream_chain (main env argv events).trace).drop 1).map Prod.snd ∧
      created_after_link (main env argv events).trace ≠ []) := by
  constructor
  · by_cases h : argv.length = 2
    · have hb := main_build_lfa env (argv.getD 1 "")
        (main_run env (decide (argv.getD 1 "" = "camera")) (argv.getD 1 "") events)
        (fun m a => lfa_inert env _ (main_run_inert _ _ _ _) m a)
      simp only [main, h, ne_eq, not_true_eq_false, if_false, call_trace, links_follow_adds]
      exact hb
    · simp [main, h, links_follow_adds]
  · intro h
    exact main_ok_order_chains env argv events h

/-- C10, amended, for the camera on a discrete GPU on the platform where every call
succeeds: the four links of the source-side chain come before the creation of
`primary-nvinference-engine`, and four elements are created after the first link. -/
theorem links_after_their_nodes_witness :
    (main (env_ok false) ["prog", "camera"] []).status = 0 ∧
    links_follow_adds (env_ok false) [] [] (main (env_ok false) ["prog", "camera"] []).trace =
      true ∧
    links_before_creation "primary-nvinference-engine"
        (main (env_ok false) ["prog", "camera"] []).trace =
      [("src_elem", "src_cap_filter1"), ("src_cap_filter1", "nvvidconv1"),
        ("nvvidconv1", "nvvidconv2"), ("nvvidconv2", "src_cap_filter")] ∧
    created_after_link (main (env_ok false) ["prog", "camera"] []).trace =
      ["primary-nvinference-engine", "osd_conv", "nv-onscreendisplay", "nvvideo-renderer"] :=
  ⟨by decide,
   (links_after_their_nodes (env_ok false) ["prog", "camera"] []).1,
   ((links_after_their_nodes (env_ok false) ["prog", "camera"] []).2 (by decide)).1.trans
     (by decide),
   ((links_after_their_nodes (env_ok false) ["prog", "camera"] []).2 (by decide)).2.2.1.trans
     (by decide)⟩

end DeepstreamPeopleCount
